import Mathlib

/-!
# Claim Integrity Engine — shallow embedding and verification

This file is a shallow embedding, in Lean 4, of the core of the
claim-integrity-engine Python repository (`src/claim_engine/...`), together
with theorems settling the frozen claims about it.

Modelling conventions:

* Python `Decimal` and `float` values are modelled as exact rationals (`Rat`).
  The source performs its arithmetic on `Decimal`s (exact) and on `float`s;
  float rounding at the ULP level is not modelled.  All concrete inputs used
  in theorems are chosen far from any comparison boundary.
* Python strings are modelled as `String` / `List Char` (the matching engine
  works on `List Char`).  `\w`, `\d`, `\s` are interpreted over ASCII, which
  covers every string the embedded code paths construct or match.
* Python regular expressions are embedded by a small backtracking matcher
  (`Re` / `matchRe`) whose success list is ordered exactly like CPython `re`
  backtracking: alternation prefers the left branch, `?`, `*` and `{m,n}`
  are greedy, and the overall match at a position is the first success.
  `findall` scans left to right, resuming after each (non-empty) match, and
  `str.replace` replaces every occurrence.  Recursion is structural over an
  explicit fuel so that all functions reduce inside the kernel; the fuel
  passed at every call site is far larger than the deepest possible
  backtracking path for the patterns and strings involved.
* Number-to-text interpolations inside informational fields (descriptions,
  titles, affected-item labels) use a canonical rational rendering instead of
  CPython's exact `str(Decimal)` / format-spec output.  No claim inspects
  those interpolated characters.
* The redactor's write-only `_redaction_log` (never read by any redaction
  decision) and wall-clock fields (`audit_timestamp`, `claim_date`) are
  omitted.
-/

/- Batteries marks the `Rat` field operations irreducible; re-open them so
that concrete evaluations (`decide` on counterexamples and witnesses) reduce. -/
unseal Rat.mul Rat.add Rat.sub Rat.inv

set_option maxRecDepth 16000

/-! ## Character classes and basic string utilities -/

/-- ASCII model of Python regex `\w` (`[a-zA-Z0-9_]`). -/
def isWordChar (c : Char) : Bool :=
  c.isAlpha || c.isDigit || c == '_'

/-- ASCII model of Python regex `\s`. -/
def isSpaceChar (c : Char) : Bool :=
  c == ' ' || c == '\t' || c == '\n' || c == '\r' || c == '\x0b' || c == '\x0c'

/-- Python `str.lower` on a character (ASCII). -/
def pyLower (c : Char) : Char := c.toLower

/-- Python `str.upper` on a character (ASCII). -/
def pyUpper (c : Char) : Char := c.toUpper

/-- Python `str.lower`. -/
def lowerL (s : List Char) : List Char := s.map pyLower

/-- Python `str.upper`. -/
def upperL (s : List Char) : List Char := s.map pyUpper

/-- Python `needle in hay` on strings (substring containment). -/
def containsSub (hay needle : List Char) : Bool :=
  needle.isPrefixOf hay ||
    match hay with
    | [] => false
    | _ :: rest => containsSub rest needle

/-- Python `str.startswith`. -/
def startsWithL (s pre : List Char) : Bool := pre.isPrefixOf s

/-- Python `str.replace old new` (all non-overlapping occurrences, left to
right).  Structural over fuel; `fuel = s.length` always suffices because each
step consumes at least one character of `s`. -/
def replaceAllF (old new : List Char) : Nat → List Char → List Char
  | 0, s => s
  | _ + 1, [] => []
  | fuel + 1, c :: rest =>
    if !old.isEmpty && old.isPrefixOf (c :: rest) then
      new ++ replaceAllF old new fuel ((c :: rest).drop old.length)
    else
      c :: replaceAllF old new fuel rest

/-- Python `str.replace`. -/
def replaceAll (s old new : List Char) : List Char :=
  replaceAllF old new s.length s

/-! ## A small regex engine mirroring CPython `re` backtracking

`Ctx` is a matching position: the character just before it (for `\b`) and the
remaining input. -/

/-- A matching position: previous character (if any) and remaining input. -/
def RCtx : Type := Option Char × List Char

/-- Regex abstract syntax.  `cls` is a character class, `wb` is `\b`, `nla`
is a negative lookahead `(?! ...)`, `many` is greedy `*`, `rep` is `{n}`. -/
inductive Re where
  | eps : Re
  | cls (p : Char → Bool) : Re
  | seq (a b : Re) : Re
  | alt (a b : Re) : Re
  | opt (a : Re) : Re
  | rep (a : Re) (n : Nat) : Re
  | many (a : Re) : Re
  | wb : Re
  | nla (a : Re) : Re

/-- All ways the pattern can match at the given position, ordered by CPython
backtracking priority (left alternative first, greedy repetition longest
first).  Structural over `fuel`; every recursive call decreases it, so a fuel
larger than the deepest backtracking path gives the exact `re` semantics. -/
def matchRe : Nat → Re → RCtx → List RCtx
  | 0, _, _ => []
  | _ + 1, .eps, c => [c]
  | _ + 1, .cls _, (_, []) => []
  | _ + 1, .cls p, (_, ch :: rest) => if p ch then [(some ch, rest)] else []
  | fuel + 1, .seq a b, c => (matchRe fuel a c).flatMap (matchRe fuel b)
  | fuel + 1, .alt a b, c => matchRe fuel a c ++ matchRe fuel b c
  | fuel + 1, .opt a, c => matchRe fuel a c ++ [c]
  | _ + 1, .rep _ 0, c => [c]
  | fuel + 1, .rep a (n + 1), c => (matchRe fuel a c).flatMap (matchRe fuel (.rep a n))
  | fuel + 1, .many a, c => (matchRe fuel a c).flatMap (matchRe fuel (.many a)) ++ [c]
  | _ + 1, .wb, (prev, rest) =>
    let pw := match prev with | some p => isWordChar p | none => false
    let nw := match rest with | ch :: _ => isWordChar ch | [] => false
    if pw != nw then [(prev, rest)] else []
  | fuel + 1, .nla a, c => if (matchRe fuel a c).isEmpty then [c] else []

/-- Structural size of a pattern, used to budget fuel. -/
def reSize : Re → Nat
  | .eps => 1
  | .cls _ => 1
  | .seq a b => reSize a + reSize b + 1
  | .alt a b => reSize a + reSize b + 1
  | .opt a => reSize a + 1
  | .rep a n => (n + 1) * (reSize a + 1) + 1
  | .many a => reSize a + 1
  | .wb => 1
  | .nla a => reSize a + 1

/-- Fuel that dominates the deepest backtracking path of `r` on `s`. -/
def reFuel (r : Re) (s : List Char) : Nat :=
  (s.length + 2) * (reSize r + 2)

/-- Length of the match of `r` at this position (first success in CPython
priority order), or `none`. -/
def matchHere (r : Re) (prev : Option Char) (s : List Char) : Option Nat :=
  match matchRe (reFuel r s) r (prev, s) with
  | [] => none
  | (_, rest) :: _ => some (s.length - rest.length)

/-- Does `r` match anywhere in the input (Python `pattern.search`)?  Tries
every position left to right, including the final empty position. -/
def reSearchAux (r : Re) (prev : Option Char) : List Char → Bool
  | [] => (matchHere r prev []).isSome
  | c :: rest => (matchHere r prev (c :: rest)).isSome || reSearchAux r (some c) rest

/-- Python `pattern.search(s) is not None`. -/
def reSearch (r : Re) (s : List Char) : Bool := reSearchAux r none s

/-- Python `pattern.findall` (patterns without capture groups): scan left to
right, taking at each position the first match in backtracking priority order
and resuming after it; zero-width matches are skipped (none of the embedded
patterns can match the empty string).  Structural over fuel;
`fuel = s.length + 1` always suffices. -/
def findallF (r : Re) : Nat → Option Char → List Char → List (List Char)
  | 0, _, _ => []
  | _ + 1, _, [] => []
  | fuel + 1, prev, s@(c :: rest) =>
    match matchHere r prev s with
    | some (k + 1) =>
      (s.take (k + 1)) :: findallF r fuel ((s.take (k + 1)).getLast? ) (s.drop (k + 1))
    | _ => findallF r fuel (some c) rest

/-- Python `pattern.findall`. -/
def findall (r : Re) (s : List Char) : List (List Char) :=
  findallF r (s.length + 1) none s

/-! ## Pattern construction helpers -/

/-- The empty character class (matches nothing); base case of alternation
lists. -/
def reNever : Re := .cls (fun _ => false)

/-- Case-sensitive literal character. -/
def chC (c : Char) : Re := .cls (fun x => x == c)

/-- Case-insensitive literal character (`re.IGNORECASE`). -/
def chCI (c : Char) : Re := .cls (fun x => pyLower x == pyLower c)

/-- Case-sensitive literal string. -/
def litS (s : String) : Re := (s.data.map chC).foldr .seq .eps

/-- Case-insensitive literal string. -/
def litCI (s : String) : Re := (s.data.map chCI).foldr .seq .eps

/-- Sequence of patterns. -/
def seqL (rs : List Re) : Re := rs.foldr .seq .eps

/-- Alternation, preferring earlier entries (CPython `|`). -/
def altL (rs : List Re) : Re := rs.foldr .alt reNever

/-- `\d`. -/
def reDigit : Re := .cls Char.isDigit

/-- Greedy `{0,k}`. -/
def uptoRe (a : Re) : Nat → Re
  | 0 => .eps
  | k + 1 => .alt (.seq a (uptoRe a k)) .eps

/-- Greedy `{m,n}`. -/
def repRange (a : Re) (m n : Nat) : Re := .seq (.rep a m) (uptoRe a (n - m))

/-- Greedy `{m,}`. -/
def atLeast (a : Re) (m : Nat) : Re := .seq (.rep a m) (.many a)

/-- Greedy `+`. -/
def many1 (a : Re) : Re := .seq a (.many a)

/-! ## PII redactor (`utils/pii_redaction.py`)

The embedded `PIIRedactor` is the default-constructed one used throughout the
engine: `redact_names = True`, `redact_addresses = True`, no custom patterns.
-/

/-- `[-\s]`. -/
def clsDashSpace : Re := .cls (fun c => c == '-' || isSpaceChar c)

/-- `[-.\s]`. -/
def clsDashDotSpace : Re := .cls (fun c => c == '-' || c == '.' || isSpaceChar c)

/-- `PATTERNS["ssn"]`: `\b\d{3}[-\s]?\d{2}[-\s]?\d{4}\b`. -/
def ssnRe : Re :=
  seqL [.wb, .rep reDigit 3, .opt clsDashSpace, .rep reDigit 2, .opt clsDashSpace,
        .rep reDigit 4, .wb]

/-- `PATTERNS["phone"]`: `\b(?:\+?1[-.\s]?)?\(?\d{3}\)?[-.\s]?\d{3}[-.\s]?\d{4}\b`. -/
def phoneRe : Re :=
  seqL [.wb, .opt (seqL [.opt (chC '+'), chC '1', .opt clsDashDotSpace]),
        .opt (chC '('), .rep reDigit 3, .opt (chC ')'), .opt clsDashDotSpace,
        .rep reDigit 3, .opt clsDashDotSpace, .rep reDigit 4, .wb]

/-- `PATTERNS["email"]`: `\b[A-Za-z0-9._%+-]+@[A-Za-z0-9.-]+\.[A-Z|a-z]{2,}\b`.
Note the source's TLD class `[A-Z|a-z]` literally includes the bar. -/
def emailRe : Re :=
  seqL [.wb,
        many1 (.cls (fun c => c.isAlpha || c.isDigit || c == '.' || c == '_' ||
                              c == '%' || c == '+' || c == '-')),
        chC '@',
        many1 (.cls (fun c => c.isAlpha || c.isDigit || c == '.' || c == '-')),
        chC '.',
        atLeast (.cls (fun c => c.isUpper || c == '|' || c.isLower)) 2,
        .wb]

/-- `PATTERNS["credit_card"]`: `\b(?:\d{4}[-\s]?){3}\d{4}\b|\b\d{15,16}\b`. -/
def creditCardRe : Re :=
  .alt (seqL [.wb, .rep (.seq (.rep reDigit 4) (.opt clsDashSpace)) 3,
              .rep reDigit 4, .wb])
       (seqL [.wb, repRange reDigit 15 16, .wb])

/-- `PATTERNS["bank_account"]`: `\b\d{8,17}\b`. -/
def bankAccountRe : Re := seqL [.wb, repRange reDigit 8 17, .wb]

/-- `PATTERNS["drivers_license"]`: `\b[A-Z]{1,2}\d{5,8}\b`. -/
def driversLicenseRe : Re :=
  seqL [.wb, repRange (.cls Char.isUpper) 1 2, repRange reDigit 5 8, .wb]

/-- `PATTERNS["date_of_birth"]`:
`\b(?:0?[1-9]|1[0-2])[/\-](?:0?[1-9]|[12]\d|3[01])[/\-](?:19|20)\d{2}\b`. -/
def dateOfBirthRe : Re :=
  seqL [.wb,
        .alt (.seq (.opt (chC '0')) (.cls (fun c => '1' ≤ c && c ≤ '9')))
             (.seq (chC '1') (.cls (fun c => '0' ≤ c && c ≤ '2'))),
        .cls (fun c => c == '/' || c == '-'),
        altL [.seq (.opt (chC '0')) (.cls (fun c => '1' ≤ c && c ≤ '9')),
              .seq (.cls (fun c => c == '1' || c == '2')) reDigit,
              .seq (chC '3') (.cls (fun c => c == '0' || c == '1'))],
        .cls (fun c => c == '/' || c == '-'),
        .alt (litS "19") (litS "20"),
        .rep reDigit 2,
        .wb]

/-- `PATTERNS["zip_code"]`: `\b\d{5}(?:-\d{4})?\b`. -/
def zipCodeRe : Re :=
  seqL [.wb, .rep reDigit 5, .opt (.seq (chC '-') (.rep reDigit 4)), .wb]

/-- `ADDRESS_PATTERN` (IGNORECASE):
`\b\d+\s+[\w\s]+(?:street|st|avenue|ave|road|rd|boulevard|blvd|drive|dr|court|ct|lane|ln|way|circle|cir|place|pl)\b`. -/
def addressRe : Re :=
  seqL [.wb, many1 reDigit, many1 (.cls isSpaceChar),
        many1 (.cls (fun c => isWordChar c || isSpaceChar c)),
        altL (["street", "st", "avenue", "ave", "road", "rd", "boulevard",
               "blvd", "drive", "dr", "court", "ct", "lane", "ln", "way",
               "circle", "cir", "place", "pl"].map litCI),
        .wb]

/-- `NAME_TITLE_PATTERN` (IGNORECASE):
`\b(?:Mr\.|Mrs\.|Ms\.|Dr\.|Prof\.)\s+[A-Z][a-z]+(?:\s+[A-Z][a-z]+)?`.
Under IGNORECASE both `[A-Z]` and `[a-z]` match any ASCII letter. -/
def nameTitleRe : Re :=
  seqL [.wb,
        altL (["Mr.", "Mrs.", "Ms.", "Dr.", "Prof."].map litCI),
        many1 (.cls isSpaceChar), .cls Char.isAlpha, many1 (.cls Char.isAlpha),
        .opt (seqL [many1 (.cls isSpaceChar), .cls Char.isAlpha,
                    many1 (.cls Char.isAlpha)])]

/-- `PIIRedactor.REDACTED`. -/
def REDACTED : List Char := "[REDACTED]".data

/-- One pattern pass of `redact_string`: `findall` on the current text, then
replace each collected match string in turn (the source mutates `result`
inside the loop, so later replacements act on the already-updated text). -/
def applyPattern (r : Re) (s : List Char) : List Char :=
  (findall r s).foldl (fun acc m => replaceAll acc m REDACTED) s

/-- The `PIIRedactor.PATTERNS` dict, in insertion order. -/
def redactorPatterns : List Re :=
  [ssnRe, phoneRe, emailRe, creditCardRe, bankAccountRe, driversLicenseRe,
   dateOfBirthRe, zipCodeRe]

/-- `PIIRedactor.redact_string` for the default redactor (no custom patterns,
`redact_addresses` and `redact_names` enabled). -/
def redact_string (s : List Char) : List Char :=
  if s.isEmpty then s
  else
    applyPattern nameTitleRe
      (applyPattern addressRe
        (redactorPatterns.foldl (fun acc r => applyPattern r acc) s))

/-- `PIIRedactor.PII_FIELDS`. -/
def PII_FIELDS : List (List Char) :=
  ["name", "first_name", "last_name", "full_name", "insured_name",
   "claimant_name", "policyholder", "ssn", "social_security", "phone",
   "telephone", "mobile", "email", "email_address", "address",
   "street_address", "mailing_address", "property_address", "date_of_birth",
   "dob", "birth_date", "driver_license", "drivers_license", "dl_number",
   "account_number", "routing_number", "credit_card",
   "card_number"].map String.data

/-- `redact_dict`'s known-PII-field test on an already-lowercased key:
`key_lower in PII_FIELDS or any(pii_key in key_lower for pii_key in PII_FIELDS)`. -/
def is_pii_field (keyLower : List Char) : Bool :=
  PII_FIELDS.contains keyLower || PII_FIELDS.any (fun k => containsSub keyLower k)

/-! Nested Python values (the trees `redact_dict` / `redact_list` walk).
Mutual inductives keep all recursion structural, hence kernel-reducible. -/

mutual
/-- A Python value as walked by the redactor: strings, scalars (numbers,
booleans, `None`), dicts and lists. -/
inductive PyVal where
  | vstr (s : List Char) : PyVal
  | vnum (q : Rat) : PyVal
  | vbool (b : Bool) : PyVal
  | vnone : PyVal
  | vdict (entries : PyEntries) : PyVal
  | vlist (items : PyItems) : PyVal

/-- Ordered dict entries. -/
inductive PyEntries where
  | nil : PyEntries
  | cons (key : List Char) (val : PyVal) (rest : PyEntries) : PyEntries

/-- List items. -/
inductive PyItems where
  | nil : PyItems
  | cons (val : PyVal) (rest : PyItems) : PyItems
end

/-- Dict lookup (first occurrence). -/
def PyEntries.lookup (k : List Char) : PyEntries → Option PyVal
  | .nil => none
  | .cons k' v rest => if k' == k then some v else PyEntries.lookup k rest

mutual
/-- `PIIRedactor.redact_dict` (path bookkeeping and the write-only redaction
log omitted): for each key, if the value is a dict or list recurse; if it is
a string, replace it entirely by `[REDACTED]` when the key is a known PII
field and otherwise run `redact_string`; any other value passes through. -/
def redact_dict : PyEntries → PyEntries
  | .nil => .nil
  | .cons key v rest =>
    let isPii := is_pii_field (lowerL key)
    let v' : PyVal :=
      match v with
      | .vdict d => .vdict (redact_dict d)
      | .vlist l => .vlist (redact_list l)
      | .vstr s => if isPii then .vstr REDACTED else .vstr (redact_string s)
      | other => other
    .cons key v' (redact_dict rest)

/-- `PIIRedactor.redact_list`. -/
def redact_list : PyItems → PyItems
  | .nil => .nil
  | .cons v rest =>
    let v' : PyVal :=
      match v with
      | .vdict d => .vdict (redact_dict d)
      | .vlist l => .vlist (redact_list l)
      | .vstr s => .vstr (redact_string s)
      | other => other
    .cons v' (redact_list rest)
end


/-! ## Domain model (`core/models.py`) -/

/-- `AuditCategory`. -/
inductive AuditCategory where
  | financial
  | leakage
  | supplement_risk
deriving DecidableEq, Repr

/-- `AuditSeverity`. -/
inductive AuditSeverity where
  | info
  | warning
  | error
  | critical
deriving DecidableEq, Repr

/-- Values stored in free-form `evidence` / `metadata` dictionaries: the
embedded code paths only ever store strings, ints, rationals (floats and
Decimals), booleans and lists of strings there. -/
inductive EvVal where
  | s (v : String)
  | i (v : Int)
  | q (v : Rat)
  | b (v : Bool)
  | ls (v : List String)
deriving DecidableEq, Repr

/-- `Room`. -/
structure Room where
  name : String
  sqft : Rat
  room_type : String := "standard"
  floor_type : Option String := none
  affected : Bool := true
deriving DecidableEq, Repr

/-- `LineItem` (before `model_post_init`). -/
structure LineItem where
  code : String
  description : String
  quantity : Rat
  unit : String := "EA"
  unit_price : Rat
  total : Option Rat := none
  category : Option String := none
  room : Option String := none
  days : Option Int := none
deriving DecidableEq, Repr

/-- `LineItem` construction including `model_post_init`: if `total` was not
provided it becomes `quantity * unit_price`. -/
def mkLineItem (it : LineItem) : LineItem :=
  match it.total with
  | none => { it with total := some (it.quantity * it.unit_price) }
  | some _ => it

/-- `PolicyCoverage`. -/
structure PolicyCoverage where
  deductible : Rat
  coverage_a : Rat
  coverage_b : Rat
  coverage_c : Rat
  coverage_d : Option Rat := none
  water_damage_limit : Option Rat := none
  mold_limit : Option Rat := none
  contents_limit : Option Rat := none
deriving DecidableEq, Repr

/-- `PropertyDetails` (before `model_post_init`).  `water_category` holds the
IICRC category number 1, 2 or 3 when present. -/
structure PropertyDetails where
  affected_rooms : List Room := []
  water_category : Option Nat := none
  total_affected_sqft : Option Rat := none
  property_type : String := "residential"
deriving DecidableEq, Repr

/-- `sum(room.sqft for room in affected_rooms if room.affected)`. -/
def affectedSqftSum (rooms : List Room) : Rat :=
  ((rooms.filter (fun r => r.affected)).map Room.sqft).sum

/-- `PropertyDetails` construction including `model_post_init`: if
`total_affected_sqft` was not provided and `affected_rooms` is non-empty
(Python truthiness of the list), it becomes the sum of `sqft` over rooms with
`affected = True`. -/
def mkPropertyDetails (p : PropertyDetails) : PropertyDetails :=
  if p.total_affected_sqft = none ∧ p.affected_rooms ≠ [] then
    { p with total_affected_sqft := some (affectedSqftSum p.affected_rooms) }
  else p

/-- `ClaimData` (before `model_post_init`; `claim_date` omitted as wall-clock
data). -/
structure ClaimData where
  claim_id : String
  policy : PolicyCoverage
  line_items : List LineItem := []
  property_details : PropertyDetails := {
    affected_rooms := [], water_category := none,
    total_affected_sqft := none, property_type := "residential" }
  gross_claim : Option Rat := none
  net_claim : Option Rat := none
  metadata : List (String × EvVal) := []
deriving DecidableEq, Repr

/-- `sum(item.total for item in line_items if item.total is not None)`. -/
def sumTotals (items : List LineItem) : Rat :=
  (items.filterMap LineItem.total).sum

/-- `ClaimData` construction including `model_post_init`: if `gross_claim`
was not provided and `line_items` is non-empty (Python truthiness), it
becomes the sum of the items' totals; then, if `net_claim` was not provided
and `gross_claim` is present, it becomes `max(0, gross_claim - deductible)`. -/
def mkClaimData (c : ClaimData) : ClaimData :=
  let c :=
    if c.gross_claim = none ∧ c.line_items ≠ [] then
      { c with gross_claim := some (sumTotals c.line_items) }
    else c
  match c.net_claim, c.gross_claim with
  | none, some g => { c with net_claim := some (max 0 (g - c.policy.deductible)) }
  | _, _ => c

/-- `AuditFinding`. -/
structure AuditFinding where
  finding_id : String
  category : AuditCategory
  severity : AuditSeverity
  rule_name : String
  title : String
  description : String
  affected_items : List String := []
  potential_impact : Option Rat := none
  recommendation : Option String := none
  evidence : List (String × EvVal) := []
deriving DecidableEq, Repr

/-- `AuditSummary`. -/
structure AuditSummary where
  total_findings : Nat := 0
  financial_findings : Nat := 0
  leakage_findings : Nat := 0
  supplement_risk_findings : Nat := 0
  total_potential_leakage : Rat := 0
  total_supplement_risk : Rat := 0
  risk_score : Rat := 0
deriving DecidableEq, Repr

/-- The typed content of `ScorecardBuilder`'s `claim_summary` dict (the
source stores the same data as strings via `str(...)`). -/
structure ClaimSummaryInfo where
  gross_claim : Option Rat
  net_claim : Option Rat
  line_item_count : Nat
  deductible : Rat
deriving DecidableEq, Repr

/-- `AuditScorecard` (`audit_timestamp` omitted as wall-clock data). -/
structure AuditScorecard where
  claim_id : String
  claim_summary : ClaimSummaryInfo
  findings : List AuditFinding := []
  summary : AuditSummary := {}
  modules_executed : List String := []
  redacted : Bool := false
deriving DecidableEq, Repr

/-- `AuditScorecard.add_finding`: append the finding, bump `total_findings`
and the per-category counter, and — when `potential_impact` is truthy
(present and non-zero) — add it to the matching impact total. -/
def add_finding (sc : AuditScorecard) (f : AuditFinding) : AuditScorecard :=
  let base := { sc with
    findings := sc.findings ++ [f],
    summary := { sc.summary with total_findings := sc.summary.total_findings + 1 } }
  match f.category with
  | .financial =>
    { base with summary := { base.summary with
        financial_findings := base.summary.financial_findings + 1 } }
  | .leakage =>
    let s := { base.summary with
        leakage_findings := base.summary.leakage_findings + 1 }
    let s :=
      match f.potential_impact with
      | some v =>
        if v ≠ 0 then { s with total_potential_leakage := s.total_potential_leakage + v }
        else s
      | none => s
    { base with summary := s }
  | .supplement_risk =>
    let s := { base.summary with
        supplement_risk_findings := base.summary.supplement_risk_findings + 1 }
    let s :=
      match f.potential_impact with
      | some v =>
        if v ≠ 0 then { s with total_supplement_risk := s.total_supplement_risk + v }
        else s
      | none => s
    { base with summary := s }

/-- The severity weight table of `calculate_risk_score`.  The enum is closed,
so the `.get(..., 10)` default in the source is unreachable. -/
def severityWeight : AuditSeverity → Nat
  | .info => 5
  | .warning => 15
  | .error => 30
  | .critical => 50

/-- `AuditScorecard.calculate_risk_score`: `0` with no findings, otherwise
`min(100, Σ weight(severity))`, stored into `summary.risk_score`. -/
def calculate_risk_score (sc : AuditScorecard) : AuditScorecard :=
  if sc.findings.isEmpty then
    { sc with summary := { sc.summary with risk_score := 0 } }
  else
    { sc with summary := { sc.summary with
        risk_score :=
          min 100 (((sc.findings.map (fun f => severityWeight f.severity)).sum : Nat) : Rat) } }

/-! ## Scorecard builder (`reporting/scorecard.py`) -/

/-- `ScorecardBuilder.__init__`: a fresh scorecard for the claim with the
claim-summary snapshot. -/
def initScorecard (claim : ClaimData) : AuditScorecard :=
  { claim_id := claim.claim_id,
    claim_summary := {
      gross_claim := claim.gross_claim, net_claim := claim.net_claim,
      line_item_count := claim.line_items.length,
      deductible := claim.policy.deductible } }

/-- `ScorecardBuilder.add_module` (ordered set insert). -/
def addModule (sc : AuditScorecard) (name : String) : AuditScorecard :=
  if name ∈ sc.modules_executed then sc
  else { sc with modules_executed := sc.modules_executed ++ [name] }

/-- `ScorecardBuilder`: register the executed modules, `add_findings` (a fold
of `add_finding`), then `build` (which runs `calculate_risk_score`). -/
def buildScorecard (claim : ClaimData) (modules : List String)
    (findings : List AuditFinding) : AuditScorecard :=
  calculate_risk_score
    (findings.foldl add_finding (modules.foldl addModule (initScorecard claim)))


/-! ## Rule engine (`core/rule_engine.py`) -/

/-- A raised Python exception as observed by `execute_rule`'s handler:
`str(e)` and `type(e).__name__`. -/
structure PyErr where
  message : String
  excType : String
deriving DecidableEq, Repr

/-- The `context` dictionary threaded to validators (never read by any
registered validator). -/
def RuleCtx : Type := List (String × EvVal)

/-- `AuditRule`.  A validator either returns findings or raises. -/
structure AuditRule where
  rule_id : String
  name : String
  description : String
  category : AuditCategory
  severity : AuditSeverity
  code_patterns : List String := []
  validator : Option (ClaimData → RuleCtx → Except PyErr (List AuditFinding)) := none
  enabled : Bool := true

/-- Python `int()` on a rational (truncation toward zero; on the nonnegative
values the code feeds it, this is the floor — see `pyInt_eq_floor`).  Defined
through `Nat` division so that it reduces inside the kernel. -/
def pyInt (q : Rat) : Int :=
  if q < 0 then -(((-q).num.toNat / (-q).den : Nat) : Int)
  else ((q.num.toNat / q.den : Nat) : Int)

/-- Canonical rendering of a rational for interpolated informational text
(see the header note on number formatting). -/
def ratToStr (q : Rat) : String :=
  if q.den = 1 then toString q.num else toString q.num ++ "/" ++ toString q.den

/-- The decimal digit `n` (for `n < 10`) as a character. -/
def digitChar (n : Nat) : Char := Char.ofNat (48 + n)

/-- The six base-10 digits of `n < 10^6`, most significant first. -/
def sixDigits (n : Nat) : List Char :=
  [digitChar (n / 100000 % 10), digitChar (n / 10000 % 10),
   digitChar (n / 1000 % 10), digitChar (n / 100 % 10),
   digitChar (n / 10 % 10), digitChar (n % 10)]

/-- Python `f"{n:06d}"`: the decimal representation left-padded with zeros to
at least six digits. -/
def fmt06 (n : Nat) : String :=
  if n < 1000000 then String.mk (sixDigits n) else toString n

/-- The finding id minted for counter value `n`: `f"FND-{n:06d}"`. -/
def mkFindingId (n : Nat) : String := "FND-" ++ fmt06 n

/-- `RuleEngine.generate_finding_id`: increment the private counter and
format it. -/
def generate_finding_id (counter : Nat) : Nat × String :=
  (counter + 1, mkFindingId (counter + 1))

/-- Does a string match `^FND-\d{6}$`? -/
def matchesFndPattern (s : String) : Bool :=
  match s.data with
  | 'F' :: 'N' :: 'D' :: '-' :: ds => ds.length == 6 && ds.all Char.isDigit
  | _ => false

/-- The ids issued by `k` successive `generate_finding_id` calls starting
from counter value `c`. -/
def issuedIds (c : Nat) : Nat → List String
  | 0 => []
  | k + 1 =>
    let (c', id) := generate_finding_id c
    id :: issuedIds c' k

/-- `RuleEngine.create_finding` (threading the finding counter).  The
`potential_impact` argument is kept only when truthy (non-`None` and
non-zero), mirroring `Decimal(str(potential_impact)) if potential_impact
else None`. -/
def create_finding (counter : Nat) (rule : AuditRule) (title description : String)
    (affected_items : Option (List String)) (potential_impact : Option Rat)
    (recommendation : Option String) (evidence : Option (List (String × EvVal))) :
    Nat × AuditFinding :=
  let (c', fid) := generate_finding_id counter
  (c',
   { finding_id := fid, category := rule.category, severity := rule.severity,
     rule_name := rule.name, title := title, description := description,
     affected_items := affected_items.getD [],
     potential_impact :=
       match potential_impact with
       | some v => if v ≠ 0 then some v else none
       | none => none,
     recommendation := recommendation,
     evidence := evidence.getD [] })

/-- `RuleEngine.execute_rule`: disabled rules and rules without a validator
yield nothing; a raising validator is contained and yields exactly the one
synthetic error finding built by `create_finding`. -/
def execute_rule (counter : Nat) (rule : AuditRule) (claim : ClaimData)
    (ctx : RuleCtx) : Nat × List AuditFinding :=
  if !rule.enabled then (counter, [])
  else
    match rule.validator with
    | none => (counter, [])
    | some v =>
      match v claim ctx with
      | .ok fs => (counter, fs)
      | .error e =>
        let (c', f) := create_finding counter rule
          ("Rule Execution Error: " ++ rule.name)
          ("Error executing rule: " ++ e.message)
          none none none
          (some [("error", .s e.message), ("error_type", .s e.excType)])
        (c', [f])

/-- The mutable registry state of a `RuleEngine`: the `rule_id → rule` dict
(insertion-ordered, unique keys) and the category index (the compiled-pattern
cache and finding counter are independent of `remove_rule` / `get_rule`). -/
structure RegState where
  rules : List (String × AuditRule)
  catIndex : AuditCategory → List String

/-- `RuleEngine.get_rule`. -/
def get_rule (s : RegState) (rule_id : String) : Option AuditRule :=
  s.rules.lookup rule_id

/-- `RuleEngine.remove_rule`.  Returns `none` when the Python code would
raise (`list.remove` on a category list not containing the id — impossible
in any state reachable through `add_rule`/`remove_rule`); otherwise returns
the boolean result and the new state.  `list.remove` deletes the first
occurrence. -/
def remove_rule (s : RegState) (rule_id : String) : Option (Bool × RegState) :=
  match s.rules.lookup rule_id with
  | none => some (false, s)
  | some rule =>
    if rule_id ∈ s.catIndex rule.category then
      some (true,
        { rules := s.rules.eraseP (fun p => p.1 == rule_id),
          catIndex := fun c =>
            if c = rule.category then (s.catIndex rule.category).erase rule_id
            else s.catIndex c })
    else none


/-! ## Shared line-item helpers -/

/-- The text the validators probe: `f"{item.code} {item.description}"`. -/
def combinedText (it : LineItem) : List Char :=
  (it.code ++ " " ++ it.description).data

/-- `item.total or Decimal("0")` (`None` and zero both yield zero). -/
def totalOr0 (it : LineItem) : Rat :=
  match it.total with
  | some t => t
  | none => 0

/-- Python `max` over a non-empty list (0 on the unreachable empty list). -/
def maxList (vs : List Int) : Int := vs.foldl max (vs.headD 0)

/-- Python `min` over a non-empty list (0 on the unreachable empty list). -/
def minList (vs : List Int) : Int := vs.foldl min (vs.headD 0)

/-- Python `str.title` (ASCII): uppercase each letter that follows a
non-letter, lowercase the rest. -/
def pyTitleAux : Bool → List Char → List Char
  | _, [] => []
  | prevAlpha, c :: rest =>
    (if c.isAlpha then (if prevAlpha then c.toLower else c.toUpper) else c) ::
      pyTitleAux c.isAlpha rest

/-- Python `str.title`. -/
def pyTitle (s : String) : String := String.mk (pyTitleAux false s.data)

/-! ## Water remediation validator (`modules/water_remediation.py`) -/

/-- `AIR_MOVER_PATTERN`: `(AIR\s*MOVER|AIRF|FAN)`, IGNORECASE. -/
def airMoverRe : Re :=
  altL [seqL [litCI "AIR", .many (.cls isSpaceChar), litCI "MOVER"],
        litCI "AIRF", litCI "FAN"]

/-- `DEHUMIDIFIER_PATTERN`: `(DEHUM|DEHU|DH\d*)`, IGNORECASE. -/
def dehumidifierRe : Re :=
  altL [litCI "DEHUM", litCI "DEHU", .seq (litCI "DH") (.many reDigit)]

/-- `DAILY_MONITOR_PATTERN`: `(DAILY\s*MONITOR|MONITOR.*DAILY|MOISTURE\s*READ)`,
IGNORECASE.  `.` matches anything but a newline. -/
def dailyMonitorRe : Re :=
  altL [seqL [litCI "DAILY", .many (.cls isSpaceChar), litCI "MONITOR"],
        seqL [litCI "MONITOR", .many (.cls (fun c => c != '\n')), litCI "DAILY"],
        seqL [litCI "MOISTURE", .many (.cls isSpaceChar), litCI "READ"]]

/-- `PPE_CAT3_PATTERN`: `(PPE|TYVEK|RESPIRATOR|HAZMAT|BIOHAZ)`, IGNORECASE. -/
def ppeCat3Re : Re :=
  altL (["PPE", "TYVEK", "RESPIRATOR", "HAZMAT", "BIOHAZ"].map litCI)

/-- `CAT3_CLEANING_PATTERN`: `(ANTIMICROBIAL|DISINFECT|SANITIZE|BIOCIDE)`,
IGNORECASE. -/
def cat3CleaningRe : Re :=
  altL (["ANTIMICROBIAL", "DISINFECT", "SANITIZE", "BIOCIDE"].map litCI)

/-- The line items matched by the air-mover probe. -/
def air_mover_matches (claim : ClaimData) : List LineItem :=
  claim.line_items.filter (fun it => reSearch airMoverRe (combinedText it))

/-- The `air_mover_count` accumulated by `_validate_air_movers`:
`Σ int(item.quantity)` over matching items (note the per-item `int()`
truncation in the source). -/
def air_mover_count_floored (claim : ClaimData) : Int :=
  ((air_mover_matches claim).map (fun it => pyInt it.quantity)).sum

/-- `WaterRemediationValidator._validate_air_movers`, threading the rule
engine's finding counter.  Constants: `AIR_MOVER_SQFT_MIN = 50`,
`AIR_MOVER_SQFT_MAX = 70`, tolerance `1.2`, under-coverage factor `0.5`,
`$35` per excess unit. -/
def validate_air_movers (counter : Nat) (claim : ClaimData) :
    Nat × List AuditFinding :=
  let air_mover_count : Int := air_mover_count_floored claim
  let air_mover_items : List String :=
    (air_mover_matches claim).map (fun it => it.code ++ ": " ++ ratToStr it.quantity)
  if air_mover_count = 0 then (counter, [])
  else
    match claim.property_details.total_affected_sqft with
    | none => (counter, [])
    | some s =>
      if s ≤ 0 then (counter, [])
      else
        let min_expected : Rat := s / 70
        let max_expected : Rat := s / 50
        if (air_mover_count : Rat) > max_expected * (6 / 5) then
          let excess : Int := air_mover_count - pyInt max_expected
          let (c', fid) := generate_finding_id counter
          (c',
           [{ finding_id := fid, category := .leakage, severity := .warning,
              rule_name := "Air Mover Count Audit",
              title := "Excessive Air Mover Count",
              description := "Billed " ++ toString air_mover_count ++
                " air movers for " ++ ratToStr s ++
                " sq ft. Industry standard is 1 per 50-70 sq ft (expected " ++
                toString (pyInt min_expected) ++ "-" ++
                toString (pyInt max_expected) ++ ")",
              affected_items := air_mover_items,
              potential_impact := some ((excess * 35 : Int) : Rat),
              recommendation :=
                some "Review air mover count against actual affected area.",
              evidence := [("air_mover_count", .i air_mover_count),
                           ("affected_sqft", .q s),
                           ("expected_min", .i (pyInt min_expected)),
                           ("expected_max", .i (pyInt max_expected))] }])
        else if (air_mover_count : Rat) < min_expected * (1 / 2) then
          let (c', fid) := generate_finding_id counter
          (c',
           [{ finding_id := fid, category := .supplement_risk, severity := .info,
              rule_name := "Air Mover Count Audit",
              title := "Low Air Mover Count",
              description := "Only " ++ toString air_mover_count ++
                " air movers for " ++ ratToStr s ++
                " sq ft may be insufficient. Industry standard is 1 per 50-70 sq ft.",
              affected_items := air_mover_items,
              potential_impact := none,
              recommendation :=
                some "Verify drying coverage is adequate for affected area.",
              evidence := [("air_mover_count", .i air_mover_count),
                           ("affected_sqft", .q s)] }])
        else (counter, [])

/-- `WaterRemediationValidator._validate_dehumidifiers`
(`DEHUMIDIFIER_SQFT = 1000`, over-billing factor `2`). -/
def validate_dehumidifiers (counter : Nat) (claim : ClaimData) :
    Nat × List AuditFinding :=
  let ms := claim.line_items.filter (fun it => reSearch dehumidifierRe (combinedText it))
  let dehumidifier_count : Int := (ms.map (fun it => pyInt it.quantity)).sum
  let dehumidifier_items : List String :=
    ms.map (fun it => it.code ++ ": " ++ ratToStr it.quantity)
  if dehumidifier_count = 0 then (counter, [])
  else
    match claim.property_details.total_affected_sqft with
    | none => (counter, [])
    | some s =>
      if s ≤ 0 then (counter, [])
      else
        let expected : Rat := max 1 (s / 1000)
        if (dehumidifier_count : Rat) > expected * 2 then
          let (c', fid) := generate_finding_id counter
          (c',
           [{ finding_id := fid, category := .leakage, severity := .warning,
              rule_name := "Dehumidifier Count Audit",
              title := "Excessive Dehumidifier Count",
              description := "Billed " ++ toString dehumidifier_count ++
                " dehumidifiers for " ++ ratToStr s ++
                " sq ft. Typical is ~1 per 1000 sq ft (expected ~" ++
                toString (pyInt expected) ++ ")",
              affected_items := dehumidifier_items,
              potential_impact := none,
              recommendation :=
                some "Review dehumidifier count against actual drying needs.",
              evidence := [("dehumidifier_count", .i dehumidifier_count),
                           ("affected_sqft", .q s),
                           ("expected", .i (pyInt expected))] }])
        else (counter, [])

/-- The per-item equipment-days estimate of `_validate_monitoring_labor` and
`_validate_equipment_days`: `item.days if item.days else int(item.quantity)`
(`days = 0` is falsy). -/
def itemDays (it : LineItem) : Int :=
  match it.days with
  | some d => if d ≠ 0 then d else pyInt it.quantity
  | none => pyInt it.quantity

/-- `WaterRemediationValidator._validate_monitoring_labor` (`$75` per
monitoring day; a 2-day variance is allowed). -/
def validate_monitoring_labor (counter : Nat) (claim : ClaimData) :
    Nat × List AuditFinding :=
  let ms := claim.line_items.filter (fun it => reSearch dailyMonitorRe (combinedText it))
  let monitoring_days : Int := (ms.map (fun it => pyInt it.quantity)).sum
  let monitoring_items : List String :=
    ms.map (fun it => it.code ++ ": " ++ ratToStr it.quantity ++ " days")
  if monitoring_days = 0 then (counter, [])
  else
    let equipment_days : Int :=
      claim.line_items.foldl
        (fun acc it =>
          if reSearch airMoverRe (combinedText it) ||
             reSearch dehumidifierRe (combinedText it) then
            max acc (itemDays it)
          else acc) 0
    if equipment_days = 0 ∧ monitoring_days > 0 then
      let (c', fid) := generate_finding_id counter
      (c',
       [{ finding_id := fid, category := .leakage, severity := .error,
          rule_name := "Monitoring Labor Audit",
          title := "Monitoring Without Equipment",
          description := "Daily monitoring labor billed for " ++
            toString monitoring_days ++
            " days but no drying equipment found on claim.",
          affected_items := monitoring_items,
          potential_impact := some ((monitoring_days * 75 : Int) : Rat),
          recommendation :=
            some "Verify equipment is properly documented or remove monitoring charges.",
          evidence := [("monitoring_days", .i monitoring_days),
                       ("equipment_days", .i equipment_days)] }])
    else if monitoring_days > equipment_days + 2 then
      let excess_days := monitoring_days - equipment_days
      let (c', fid) := generate_finding_id counter
      (c',
       [{ finding_id := fid, category := .leakage, severity := .warning,
          rule_name := "Monitoring Labor Audit",
          title := "Excess Monitoring Days",
          description := "Monitoring labor (" ++ toString monitoring_days ++
            " days) exceeds equipment days (" ++ toString equipment_days ++
            "). Monitoring should align with active drying period.",
          affected_items := monitoring_items,
          potential_impact := some ((excess_days * 75 : Int) : Rat),
          recommendation :=
            some "Align monitoring days with equipment rental period.",
          evidence := [("monitoring_days", .i monitoring_days),
                       ("equipment_days", .i equipment_days),
                       ("excess_days", .i excess_days)] }])
    else (counter, [])

/-- `WaterRemediationValidator._validate_category_billing`: flag Category-3
PPE/cleaning items on a Category-1 (clean water) loss. -/
def validate_category_billing (counter : Nat) (claim : ClaimData) :
    Nat × List AuditFinding :=
  match claim.property_details.water_category with
  | none => (counter, [])
  | some wc =>
    if wc = 1 then
      let flagged := claim.line_items.filter (fun it =>
        reSearch ppeCat3Re (combinedText it) ||
        reSearch cat3CleaningRe (combinedText it))
      let cat3_items : List String :=
        flagged.map (fun it => it.code ++ ": " ++ it.description)
      let cat3_total : Rat :=
        flagged.foldl (fun acc it =>
          match it.total with
          | some t => if t ≠ 0 then acc + t else acc
          | none => acc) 0
      if cat3_items ≠ [] then
        let (c', fid) := generate_finding_id counter
        (c',
         [{ finding_id := fid, category := .leakage, severity := .error,
            rule_name := "Water Category Mismatch",
            title := "Category 3 Items Billed for Category 1 Loss",
            description := "Claim is documented as Category 1 (Clean Water) but includes " ++
              toString cat3_items.length ++
              " Category 3 (Black Water) PPE/cleaning items.",
            affected_items := cat3_items,
            potential_impact := some cat3_total,
            recommendation :=
              some "Verify water category classification or remove Category 3-specific charges.",
            evidence := [("documented_category", .i (wc : Int)),
                         ("flagged_item_count", .i (cat3_items.length : Int))] }])
      else (counter, [])
    else (counter, [])

/-- Insertion-ordered `dict` upsert taking the max of old and new values
(`equipment_days_by_type[t] = max(equipment_days_by_type.get(t, 0), days)`). -/
def upsertMax (l : List (String × Int)) (k : String) (v : Int) :
    List (String × Int) :=
  match l with
  | [] => [(k, max 0 v)]
  | (k', v') :: rest =>
    if k' = k then (k', max v' v) :: rest else (k', v') :: upsertMax rest k v

/-- `WaterRemediationValidator._validate_equipment_days`: per-equipment-type
max of days; flag a spread above 2 days when at least two types appear. -/
def validate_equipment_days (counter : Nat) (claim : ClaimData) :
    Nat × List AuditFinding :=
  let byType : List (String × Int) :=
    claim.line_items.foldl
      (fun acc it =>
        let t := combinedText it
        if reSearch airMoverRe t then upsertMax acc "air_mover" (itemDays it)
        else if reSearch dehumidifierRe t then upsertMax acc "dehumidifier" (itemDays it)
        else acc) []
  if byType.length > 1 then
    let vals := byType.map Prod.snd
    let max_diff := maxList vals - minList vals
    if max_diff > 2 then
      let (c', fid) := generate_finding_id counter
      (c',
       [{ finding_id := fid, category := .leakage, severity := .info,
          rule_name := "Equipment Days Consistency",
          title := "Inconsistent Equipment Days",
          description := "Equipment days vary by " ++ toString max_diff ++
            " days across equipment types. Typically all drying equipment runs for the same duration.",
          affected_items := [],
          potential_impact := none,
          recommendation :=
            some "Verify equipment days are accurate for each type.",
          evidence := byType.map (fun p => (p.1, EvVal.i p.2)) }])
    else (counter, [])
  else (counter, [])

/-- `WaterRemediationValidator.validate`: `execute_all` over the module's own
registry runs WTR-001 … WTR-005 in registration order (all enabled, all
total, so the registry's exception guard is never triggered), threading the
registry's finding counter and concatenating results. -/
def water_remediation_validate (counter : Nat) (claim : ClaimData) :
    Nat × List AuditFinding :=
  let (c1, f1) := validate_air_movers counter claim
  let (c2, f2) := validate_dehumidifiers c1 claim
  let (c3, f3) := validate_monitoring_labor c2 claim
  let (c4, f4) := validate_category_billing c3 claim
  let (c5, f5) := validate_equipment_days c4 claim
  (c5, f1 ++ f2 ++ f3 ++ f4 ++ f5)


/-! ## Financial validator (`modules/financial.py`) -/

/-- `item.code[:3].upper() if len(item.code) >= 3 else item.code.upper()`. -/
def codePrefix3 (it : LineItem) : List Char :=
  if it.code.length ≥ 3 then upperL (it.code.data.take 3) else upperL it.code.data

/-- `FinancialValidator._validate_deductible` (FIN-001). -/
def validate_deductible (counter : Nat) (claim : ClaimData) :
    Nat × List AuditFinding :=
  if claim.policy.deductible ≤ 0 then
    let (c', fid) := generate_finding_id counter
    (c',
     [{ finding_id := fid, category := .financial, severity := .warning,
        rule_name := "Deductible Application",
        title := "Zero or Missing Deductible",
        description := "Policy shows zero or no deductible. Verify this is correct.",
        affected_items := [],
        potential_impact := none,
        recommendation :=
          some "Confirm policy terms show $0 deductible or update claim data.",
        evidence := [("deductible", .s (ratToStr claim.policy.deductible))] }])
  else (counter, [])

/-- The guarded total accumulation `if <predicate> and item.total:` used by
FIN-002 … FIN-006 (`item.total` is truthy iff present and non-zero). -/
def sumWhere (p : LineItem → Bool) (items : List LineItem) : Rat :=
  items.foldl
    (fun acc it =>
      if p it then
        match it.total with
        | some t => if t ≠ 0 then acc + t else acc
        | none => acc
      else acc) 0

/-- `FinancialValidator._validate_coverage_a` (FIN-002): dwelling code
prefixes `DRY, PNT, DEM, WTR, FCC, FNC, GEN` against `coverage_a`. -/
def validate_coverage_a (counter : Nat) (claim : ClaimData) :
    Nat × List AuditFinding :=
  let dwellingCodes : List (List Char) :=
    ["DRY", "PNT", "DEM", "WTR", "FCC", "FNC", "GEN"].map String.data
  let dwelling_total :=
    sumWhere (fun it => dwellingCodes.contains (codePrefix3 it)) claim.line_items
  if dwelling_total > claim.policy.coverage_a then
    let overage := dwelling_total - claim.policy.coverage_a
    let (c', fid) := generate_finding_id counter
    (c',
     [{ finding_id := fid, category := .financial, severity := .critical,
        rule_name := "Coverage A Limit",
        title := "Coverage A Limit Exceeded",
        description := "Dwelling repairs total $" ++ ratToStr dwelling_total ++
          " exceeds Coverage A limit of $" ++ ratToStr claim.policy.coverage_a,
        affected_items := [],
        potential_impact := some overage,
        recommendation :=
          some "Review scope or discuss coverage limits with adjuster.",
        evidence := [("dwelling_total", .s (ratToStr dwelling_total)),
                     ("coverage_a_limit", .s (ratToStr claim.policy.coverage_a)),
                     ("overage", .s (ratToStr overage))] }])
  else (counter, [])

/-- `FinancialValidator._validate_coverage_b` (FIN-003): other-structures
description keywords against `coverage_b`. -/
def validate_coverage_b (counter : Nat) (claim : ClaimData) :
    Nat × List AuditFinding :=
  let kws : List (List Char) :=
    ["detached", "garage", "fence", "shed", "outbuilding"].map String.data
  let other_total :=
    sumWhere (fun it => kws.any (containsSub (lowerL it.description.data)))
      claim.line_items
  if other_total > claim.policy.coverage_b then
    let overage := other_total - claim.policy.coverage_b
    let (c', fid) := generate_finding_id counter
    (c',
     [{ finding_id := fid, category := .financial, severity := .error,
        rule_name := "Coverage B Limit",
        title := "Coverage B Limit Exceeded",
        description := "Other structures total $" ++ ratToStr other_total ++
          " exceeds Coverage B limit of $" ++ ratToStr claim.policy.coverage_b,
        affected_items := [],
        potential_impact := some overage,
        recommendation := some "Review other structures scope or policy limits.",
        evidence := [("other_structures_total", .s (ratToStr other_total)),
                     ("coverage_b_limit", .s (ratToStr claim.policy.coverage_b))] }])
  else (counter, [])

/-- `FinancialValidator._validate_coverage_c` (FIN-004): `CNT`-prefixed codes
against `coverage_c`. -/
def validate_coverage_c (counter : Nat) (claim : ClaimData) :
    Nat × List AuditFinding :=
  let contents_total :=
    sumWhere (fun it => startsWithL (upperL it.code.data) "CNT".data)
      claim.line_items
  if contents_total > claim.policy.coverage_c then
    let overage := contents_total - claim.policy.coverage_c
    let (c', fid) := generate_finding_id counter
    (c',
     [{ finding_id := fid, category := .financial, severity := .error,
        rule_name := "Coverage C Limit",
        title := "Coverage C Limit Exceeded",
        description := "Personal property total $" ++ ratToStr contents_total ++
          " exceeds Coverage C limit of $" ++ ratToStr claim.policy.coverage_c,
        affected_items := [],
        potential_impact := some overage,
        recommendation := some "Review contents inventory or policy limits.",
        evidence := [("contents_total", .s (ratToStr contents_total)),
                     ("coverage_c_limit", .s (ratToStr claim.policy.coverage_c))] }])
  else (counter, [])

/-- `FinancialValidator._validate_water_sublimit` (FIN-005). -/
def validate_water_sublimit (counter : Nat) (claim : ClaimData) :
    Nat × List AuditFinding :=
  match claim.policy.water_damage_limit with
  | none => (counter, [])
  | some lim =>
    let water_total :=
      sumWhere (fun it => startsWithL (upperL it.code.data) "WTR".data)
        claim.line_items
    if water_total > lim then
      let overage := water_total - lim
      let (c', fid) := generate_finding_id counter
      (c',
       [{ finding_id := fid, category := .financial, severity := .warning,
          rule_name := "Water Damage Sub-Limit",
          title := "Water Damage Sub-Limit Exceeded",
          description := "Water remediation total $" ++ ratToStr water_total ++
            " exceeds sub-limit of $" ++ ratToStr lim,
          affected_items := [],
          potential_impact := some overage,
          recommendation :=
            some "Review water damage scope against policy sub-limits.",
          evidence := [("water_total", .s (ratToStr water_total)),
                       ("sublimit", .s (ratToStr lim))] }])
    else (counter, [])

/-- `FinancialValidator._validate_mold_sublimit` (FIN-006). -/
def validate_mold_sublimit (counter : Nat) (claim : ClaimData) :
    Nat × List AuditFinding :=
  match claim.policy.mold_limit with
  | none => (counter, [])
  | some lim =>
    let kws : List (List Char) := ["mold", "fungus", "microbial"].map String.data
    let mold_total :=
      sumWhere (fun it => kws.any (containsSub (lowerL it.description.data)))
        claim.line_items
    if mold_total > lim then
      let overage := mold_total - lim
      let (c', fid) := generate_finding_id counter
      (c',
       [{ finding_id := fid, category := .financial, severity := .warning,
          rule_name := "Mold Sub-Limit",
          title := "Mold Remediation Sub-Limit Exceeded",
          description := "Mold remediation total $" ++ ratToStr mold_total ++
            " exceeds sub-limit of $" ++ ratToStr lim,
          affected_items := [],
          potential_impact := some overage,
          recommendation :=
            some "Review mold remediation scope against policy sub-limits.",
          evidence := [("mold_total", .s (ratToStr mold_total)),
                       ("sublimit", .s (ratToStr lim))] }])
    else (counter, [])

/-- `FinancialValidator._validate_net_claim` (FIN-007): flag
`|net - max(0, gross - deductible)| > 0.01`. -/
def validate_net_claim (counter : Nat) (claim : ClaimData) :
    Nat × List AuditFinding :=
  match claim.gross_claim, claim.net_claim with
  | some g, some n =>
    let expected_net := max 0 (g - claim.policy.deductible)
    if |n - expected_net| > 1 / 100 then
      let (c', fid) := generate_finding_id counter
      (c',
       [{ finding_id := fid, category := .financial, severity := .error,
          rule_name := "Net Claim Calculation",
          title := "Net Claim Calculation Error",
          description := "Net claim $" ++ ratToStr n ++
            " does not match expected $" ++ ratToStr expected_net ++
            " (gross $" ++ ratToStr g ++ " - deductible $" ++
            ratToStr claim.policy.deductible ++ ")",
          affected_items := [],
          potential_impact := none,
          recommendation := some "Recalculate net claim amount.",
          evidence := [("stated_net", .s (ratToStr n)),
                       ("expected_net", .s (ratToStr expected_net)),
                       ("gross_claim", .s (ratToStr g)),
                       ("deductible", .s (ratToStr claim.policy.deductible))] }])
    else (counter, [])
  | _, _ => (counter, [])

/-- `FinancialValidator.validate`: `execute_category(FINANCIAL)` runs
FIN-001 … FIN-007 in registration order over the module's own registry. -/
def financial_validate (counter : Nat) (claim : ClaimData) :
    Nat × List AuditFinding :=
  let (c1, f1) := validate_deductible counter claim
  let (c2, f2) := validate_coverage_a c1 claim
  let (c3, f3) := validate_coverage_b c2 claim
  let (c4, f4) := validate_coverage_c c3 claim
  let (c5, f5) := validate_water_sublimit c4 claim
  let (c6, f6) := validate_mold_sublimit c5 claim
  let (c7, f7) := validate_net_claim c6 claim
  (c7, f1 ++ f2 ++ f3 ++ f4 ++ f5 ++ f6 ++ f7)


/-! ## Flooring validator (`modules/flooring.py`) -/

/-- `CARPET_PATTERN`: `(CARPET|CPT|CRPT)`, IGNORECASE. -/
def carpetRe : Re := altL (["CARPET", "CPT", "CRPT"].map litCI)

/-- `PAD_PATTERN`: `\b(PAD|CUSHION|UNDERLAY)\b`, IGNORECASE. -/
def padRe : Re :=
  seqL [.wb, altL (["PAD", "CUSHION", "UNDERLAY"].map litCI), .wb]

/-- `HARDWOOD_PATTERN`: `(HARDWOOD|HWD|WOOD\s*FLOOR|ENGINEERED)`, IGNORECASE. -/
def hardwoodRe : Re :=
  altL [litCI "HARDWOOD", litCI "HWD",
        seqL [litCI "WOOD", .many (.cls isSpaceChar), litCI "FLOOR"],
        litCI "ENGINEERED"]

/-- `TILE_PATTERN`: `(TILE|CERAMIC|PORCELAIN|STONE)`, IGNORECASE. -/
def tileRe : Re := altL (["TILE", "CERAMIC", "PORCELAIN", "STONE"].map litCI)

/-- `LAMINATE_PATTERN`: `(LAMINATE|LAM\s*FLOOR)`, IGNORECASE. -/
def laminateRe : Re :=
  altL [litCI "LAMINATE",
        seqL [litCI "LAM", .many (.cls isSpaceChar), litCI "FLOOR"]]

/-- `VINYL_PATTERN`: `(VINYL|VNL|LVP|LVT|SHEET)`, IGNORECASE. -/
def vinylRe : Re := altL (["VINYL", "VNL", "LVP", "LVT", "SHEET"].map litCI)

/-- `TEAR_OUT_PATTERN`: `(TEAR\s*OUT|REMOVE|REM\s|R&R|DEMO)`, IGNORECASE. -/
def tearOutRe : Re :=
  altL [seqL [litCI "TEAR", .many (.cls isSpaceChar), litCI "OUT"],
        litCI "REMOVE", .seq (litCI "REM") (.cls isSpaceChar),
        litCI "R&R", litCI "DEMO"]

/-- `INSTALL_PATTERN`: `(INSTALL|INST|LAY|REPLACE)`, IGNORECASE. -/
def installRe : Re := altL (["INSTALL", "INST", "LAY", "REPLACE"].map litCI)

/-- `WASTE_PATTERN`: `(WASTE|CUTOFF|CUT\s*OFF|OVERAGE)`, IGNORECASE. -/
def wasteRe : Re :=
  altL [litCI "WASTE", litCI "CUTOFF",
        seqL [litCI "CUT", .many (.cls isSpaceChar), litCI "OFF"],
        litCI "OVERAGE"]

/-- `LEVELING_PATTERN`: `(LEVEL|PREP|SUBFLOOR|SELF\s*LEVEL|FLOAT)`, IGNORECASE. -/
def levelingRe : Re :=
  altL [litCI "LEVEL", litCI "PREP", litCI "SUBFLOOR",
        seqL [litCI "SELF", .many (.cls isSpaceChar), litCI "LEVEL"],
        litCI "FLOAT"]

/-- `transition_pattern` of FLR-004: `(TRANSITION|T-MOLD|REDUCER|THRESHOLD)`,
IGNORECASE. -/
def transitionRe : Re :=
  altL (["TRANSITION", "T-MOLD", "REDUCER", "THRESHOLD"].map litCI)

/-- The flooring-type classification of `_validate_waste`: first match among
carpet, hardwood, tile, vinyl-or-laminate, with the matching waste threshold
(`0.10`, `0.15`, `0.15`, `0.10`). -/
def floorTypeOf (t : List Char) : Option (String × Rat) :=
  if reSearch carpetRe t then some ("carpet", 1 / 10)
  else if reSearch hardwoodRe t then some ("hardwood", 3 / 20)
  else if reSearch tileRe t then some ("tile", 3 / 20)
  else if reSearch vinylRe t || reSearch laminateRe t then
    some ("vinyl_laminate", 1 / 10)
  else none

/-- Per-floor-type accumulator of `_validate_waste`: material total, waste
total, waste threshold. -/
structure WasteAcc where
  material : Rat
  waste : Rat
  max_waste : Rat
deriving DecidableEq, Repr

/-- Insertion-ordered upsert into the `flooring_by_type` dict. -/
def wasteUpsert (l : List (String × WasteAcc)) (k : String)
    (f : WasteAcc → WasteAcc) (init : WasteAcc) : List (String × WasteAcc) :=
  match l with
  | [] => [(k, f init)]
  | (k', a) :: rest =>
    if k' = k then (k', f a) :: rest else (k', a) :: wasteUpsert rest k f init

/-- `FlooringValidator._validate_waste` (FLR-001). -/
def validate_waste (counter : Nat) (claim : ClaimData) :
    Nat × List AuditFinding :=
  let byType : List (String × WasteAcc) :=
    claim.line_items.foldl
      (fun acc it =>
        let t := combinedText it
        match floorTypeOf t with
        | none => acc
        | some (ft, maxw) =>
          let init : WasteAcc := { material := 0, waste := 0, max_waste := maxw }
          if reSearch wasteRe t then
            wasteUpsert acc ft (fun a => { a with waste := a.waste + totalOr0 it }) init
          else if reSearch installRe t then
            wasteUpsert acc ft (fun a => { a with material := a.material + totalOr0 it }) init
          else
            wasteUpsert acc ft id init) []
  byType.foldl
    (fun (st : Nat × List AuditFinding) (p : String × WasteAcc) =>
      let (c, fs) := st
      let (ft, a) := p
      if a.material > 0 ∧ a.waste > 0 then
        let waste_pct := a.waste / a.material
        if waste_pct > a.max_waste then
          let excess_waste := a.waste - a.material * a.max_waste
          let (c', fid) := generate_finding_id c
          (c', fs ++
           [{ finding_id := fid, category := .leakage, severity := .warning,
              rule_name := "Flooring Waste Audit",
              title := "Excessive " ++ pyTitle ft ++ " Waste",
              description := pyTitle ft ++ " waste is " ++ ratToStr waste_pct ++
                " of material cost, exceeding the " ++ ratToStr a.max_waste ++
                " threshold for simple room profiles.",
              affected_items := [],
              potential_impact := some excess_waste,
              recommendation :=
                some "Review room layout complexity. Higher waste may be justified for irregular rooms, stairs, or pattern matching.",
              evidence := [("floor_type", .s ft),
                           ("material_cost", .s (ratToStr a.material)),
                           ("waste_cost", .s (ratToStr a.waste)),
                           ("waste_percentage", .s (ratToStr waste_pct)),
                           ("threshold", .s (ratToStr a.max_waste))] }])
        else (c, fs)
      else (c, fs))
    (counter, [])

/-- `FlooringValidator._validate_carpet_pad_overlap` (FLR-002). -/
def validate_carpet_pad_overlap (counter : Nat) (claim : ClaimData) :
    Nat × List AuditFinding :=
  let tearouts := claim.line_items.filter (fun it => reSearch tearOutRe (combinedText it))
  let carpetOnly := tearouts.filter (fun it =>
    reSearch carpetRe (combinedText it) && !reSearch padRe (combinedText it))
  let padOnly := tearouts.filter (fun it =>
    !(reSearch carpetRe (combinedText it) && !reSearch padRe (combinedText it)) &&
    (reSearch padRe (combinedText it) && !reSearch carpetRe (combinedText it)))
  let carpet_items := carpetOnly.map (fun it => it.code ++ ": " ++ it.description)
  let pad_items := padOnly.map (fun it => it.code ++ ": " ++ it.description)
  let pad_total := (padOnly.map totalOr0).sum
  if carpet_items ≠ [] ∧ pad_items ≠ [] then
    let (c', fid) := generate_finding_id counter
    (c',
     [{ finding_id := fid, category := .leakage, severity := .warning,
        rule_name := "Carpet/Pad Tear-Out Overlap",
        title := "Separate Carpet and Pad Tear-Out",
        description := "Carpet tear-out and pad tear-out are billed as separate line items. Standard practice includes pad removal with carpet tear-out.",
        affected_items := carpet_items ++ pad_items,
        potential_impact := some pad_total,
        recommendation :=
          some "Verify if pad tear-out is separate scope or if it should be included in carpet removal.",
        evidence := [("carpet_tearout_count", .i (carpet_items.length : Int)),
                     ("pad_tearout_count", .i (pad_items.length : Int)),
                     ("pad_tearout_total", .s (ratToStr pad_total))] }])
  else (counter, [])

/-- `FlooringValidator._validate_floor_prep` (FLR-003). -/
def validate_floor_prep (counter : Nat) (claim : ClaimData) :
    Nat × List AuditFinding :=
  let replacing := claim.line_items.filter (fun it =>
    reSearch installRe (combinedText it) ||
    containsSub (upperL (combinedText it)) "REPLACE".data)
  let hardwood_items :=
    (replacing.filter (fun it => reSearch hardwoodRe (combinedText it))).map
      (fun it => it.code ++ ": " ++ it.description)
  let tile_items :=
    (replacing.filter (fun it =>
      !reSearch hardwoodRe (combinedText it) &&
      reSearch tileRe (combinedText it))).map
      (fun it => it.code ++ ": " ++ it.description)
  let has_hardwood_replace := hardwood_items ≠ []
  let has_tile_replace := tile_items ≠ []
  let has_floor_leveling :=
    claim.line_items.any (fun it => reSearch levelingRe (combinedText it))
  let (c1, fs1) :=
    if has_hardwood_replace ∧ ¬has_floor_leveling then
      let (c', fid) := generate_finding_id counter
      (c',
       [{ finding_id := fid, category := .supplement_risk, severity := .info,
          rule_name := "Floor Preparation Check",
          title := "Missing Floor Prep for Hardwood",
          description := "Hardwood flooring replacement found but no floor leveling/preparation. This may result in a supplement if subfloor prep is needed.",
          affected_items := hardwood_items,
          potential_impact := none,
          recommendation :=
            some "Verify subfloor condition and include prep work if needed to avoid supplements.",
          evidence := [("hardwood_replace", .b has_hardwood_replace),
                       ("floor_leveling", .b has_floor_leveling)] }])
    else (counter, [])
  if has_tile_replace ∧ ¬has_floor_leveling then
    let (c', fid) := generate_finding_id c1
    (c', fs1 ++
     [{ finding_id := fid, category := .supplement_risk, severity := .info,
        rule_name := "Floor Preparation Check",
        title := "Missing Floor Prep for Tile",
        description := "Tile flooring replacement found but no floor leveling/preparation. Tile installation typically requires flat, level subfloor.",
        affected_items := tile_items,
        potential_impact := none,
        recommendation :=
          some "Verify subfloor flatness and include self-leveling compound if needed.",
        evidence := [("tile_replace", .b has_tile_replace),
                     ("floor_leveling", .b has_floor_leveling)] }])
  else (c1, fs1)

/-- `FlooringValidator._validate_material_matching` (FLR-004).  Python's
`set` iteration order in the evidence is abstracted by first-occurrence
order. -/
def validate_material_matching (counter : Nat) (claim : ClaimData) :
    Nat × List AuditFinding :=
  let flooring_rooms : List String :=
    claim.line_items.foldl
      (fun acc it =>
        let t := combinedText it
        if reSearch installRe t &&
           (reSearch carpetRe t || reSearch hardwoodRe t || reSearch tileRe t ||
            reSearch vinylRe t || reSearch laminateRe t) then
          match it.room with
          | some r => if r ≠ "" then acc ++ [r] else acc
          | none => acc
        else acc) []
  let has_transition :=
    claim.line_items.any (fun it => reSearch transitionRe (combinedText it))
  let unique_rooms := flooring_rooms.eraseDups
  if unique_rooms.length > 1 ∧ ¬has_transition then
    let (c', fid) := generate_finding_id counter
    (c',
     [{ finding_id := fid, category := .supplement_risk, severity := .info,
        rule_name := "Material Matching Check",
        title := "Missing Transition Strips",
        description := "Flooring in " ++ toString unique_rooms.length ++
          " rooms but no transition strips found. Transitions may be needed between rooms or flooring types.",
        affected_items := [],
        potential_impact := none,
        recommendation :=
          some "Verify if transition strips are needed between rooms or at flooring type changes.",
        evidence := [("rooms_with_flooring", .ls unique_rooms),
                     ("transition_found", .b has_transition)] }])
  else (counter, [])

/-- `FlooringValidator.validate`: `execute_all` runs FLR-001 … FLR-004 in
registration order over the module's own registry. -/
def flooring_validate (counter : Nat) (claim : ClaimData) :
    Nat × List AuditFinding :=
  let (c1, f1) := validate_waste counter claim
  let (c2, f2) := validate_carpet_pad_overlap c1 claim
  let (c3, f3) := validate_floor_prep c2 claim
  let (c4, f4) := validate_material_matching c3 claim
  (c4, f1 ++ f2 ++ f3 ++ f4)


/-! ## General repair validator (`modules/general_repair.py`) -/

/-- `(PRE\s*HUNG|PREHUNG)\s*DOOR`, IGNORECASE. -/
def preHungDoorRe : Re :=
  seqL [.alt (seqL [litCI "PRE", .many (.cls isSpaceChar), litCI "HUNG"])
             (litCI "PREHUNG"),
        .many (.cls isSpaceChar), litCI "DOOR"]

/-- `\bHINGE`, IGNORECASE. -/
def hingesRe : Re := .seq .wb (litCI "HINGE")

/-- `(WALLBOARD|DRYWALL).*(REMOVE|DEMO|TEAR)`, IGNORECASE. -/
def wallboardRemoveRe : Re :=
  seqL [.alt (litCI "WALLBOARD") (litCI "DRYWALL"),
        .many (.cls (fun c => c != '\n')),
        altL [litCI "REMOVE", litCI "DEMO", litCI "TEAR"]]

/-- `WALLPAPER.*(REMOVE|STRIP)`, IGNORECASE. -/
def wallpaperRemoveRe : Re :=
  seqL [litCI "WALLPAPER", .many (.cls (fun c => c != '\n')),
        .alt (litCI "REMOVE") (litCI "STRIP")]

/-- `PAINT.*PRIMER|PRIMER.*PAINT`, IGNORECASE. -/
def paintPrimerRe : Re :=
  .alt (seqL [litCI "PAINT", .many (.cls (fun c => c != '\n')), litCI "PRIMER"])
       (seqL [litCI "PRIMER", .many (.cls (fun c => c != '\n')), litCI "PAINT"])

/-- `\bPRIMER\b(?!.*PAINT)`, IGNORECASE. -/
def primerOnlyRe : Re :=
  seqL [.wb, litCI "PRIMER", .wb,
        .nla (seqL [.many (.cls (fun c => c != '\n')), litCI "PAINT"])]

/-- `\b(DEMO|DEMOLITION)\b`, IGNORECASE. -/
def demolitionRe : Re :=
  seqL [.wb, .alt (litCI "DEMO") (litCI "DEMOLITION"), .wb]

/-- `(HAUL\s*OFF|DISPOSAL|DUMP|DEBRIS\s*REMOVAL)`, IGNORECASE. -/
def disposalRe : Re :=
  altL [seqL [litCI "HAUL", .many (.cls isSpaceChar), litCI "OFF"],
        litCI "DISPOSAL", litCI "DUMP",
        seqL [litCI "DEBRIS", .many (.cls isSpaceChar), litCI "REMOVAL"]]

/-- `BASE\s*(BOARD|MOLDING|MOULDING)`, IGNORECASE. -/
def baseMoldingRe : Re :=
  seqL [litCI "BASE", .many (.cls isSpaceChar),
        altL [litCI "BOARD", litCI "MOLDING", litCI "MOULDING"]]

/-- `(CAP|SHOE)\s*(MOLDING|MOULDING)`, IGNORECASE. -/
def capMoldingRe : Re :=
  seqL [.alt (litCI "CAP") (litCI "SHOE"), .many (.cls isSpaceChar),
        .alt (litCI "MOLDING") (litCI "MOULDING")]

/-- `CONTENT_MANIPULATION_PATTERN`:
`(CONTENT\s*MANIP|MOVE\s*CONTENT|FURNITURE\s*MOVE|MOVE\s*OUT)`, IGNORECASE. -/
def contentManipulationRe : Re :=
  altL [seqL [litCI "CONTENT", .many (.cls isSpaceChar), litCI "MANIP"],
        seqL [litCI "MOVE", .many (.cls isSpaceChar), litCI "CONTENT"],
        seqL [litCI "FURNITURE", .many (.cls isSpaceChar), litCI "MOVE"],
        seqL [litCI "MOVE", .many (.cls isSpaceChar), litCI "OUT"]]

/-- `BLOCKING_PADDING_PATTERN`:
`(BLOCK|PAD|PROTECT|COVER|MASK).*?(CONTENT|FURNITURE|APPLIANCE)`, IGNORECASE
(the lazy `.*?` is modelled greedily — for a boolean `search` the matched
language is identical). -/
def blockingPaddingRe : Re :=
  seqL [altL (["BLOCK", "PAD", "PROTECT", "COVER", "MASK"].map litCI),
        .many (.cls (fun c => c != '\n')),
        altL (["CONTENT", "FURNITURE", "APPLIANCE"].map litCI)]

/-- `FLOORING_WORK_PATTERN`:
`(FLOOR|CARPET|HARDWOOD|TILE|VINYL|LAMINATE).*(INSTALL|REPLACE|TEAR|REMOVE)`,
IGNORECASE. -/
def flooringWorkRe : Re :=
  seqL [altL (["FLOOR", "CARPET", "HARDWOOD", "TILE", "VINYL", "LAMINATE"].map litCI),
        .many (.cls (fun c => c != '\n')),
        altL (["INSTALL", "REPLACE", "TEAR", "REMOVE"].map litCI)]

/-- A double-dip group of `DOUBLE_DIP_GROUPS`: name, description, named
patterns in order, optional overlap-pattern name. -/
structure DoubleDipGroup where
  name : String
  groupDescription : String
  patterns : List (String × Re)
  overlap_item : Option String

/-- `GeneralRepairValidator.DOUBLE_DIP_GROUPS`, in source order. -/
def DOUBLE_DIP_GROUPS : List DoubleDipGroup :=
  [{ name := "pre_hung_door_hardware",
     groupDescription := "Pre-hung door includes hinges by default",
     patterns := [("pre_hung_door", preHungDoorRe), ("hinges", hingesRe)],
     overlap_item := some "hinges" },
   { name := "wallboard_wallpaper_removal",
     groupDescription := "Drywall removal inherently removes any attached wallpaper",
     patterns := [("wallboard_remove", wallboardRemoveRe),
                  ("wallpaper_remove", wallpaperRemoveRe)],
     overlap_item := some "wallpaper_remove" },
   { name := "paint_primer",
     groupDescription := "Paint with primer may duplicate separate primer line item",
     patterns := [("paint_primer", paintPrimerRe), ("primer_only", primerOnlyRe)],
     overlap_item := some "primer_only" },
   { name := "demo_disposal",
     groupDescription := "Demolition often includes disposal; check for separate haul-off",
     patterns := [("demolition", demolitionRe), ("disposal", disposalRe)],
     overlap_item := some "disposal" },
   { name := "base_cap_molding",
     groupDescription := "Base molding replacement may already include cap molding",
     patterns := [("base_molding", baseMoldingRe), ("cap_molding", capMoldingRe)],
     overlap_item := none }]

/-- One double-dip group check inside `_validate_double_dip`: collect per
pattern the matching items, and when at least two patterns matched, emit the
group's finding (impact = sum of totals of items matching the designated
overlap pattern, dropped when zero). -/
def checkDoubleDipGroup (st : Nat × List AuditFinding) (claim : ClaimData)
    (g : DoubleDipGroup) : Nat × List AuditFinding :=
  let (c, fs) := st
  let groupMatches : List (String × List (String × String × Rat)) :=
    g.patterns.map (fun (p : String × Re) =>
      (p.1, (claim.line_items.filter (fun it => reSearch p.2 (combinedText it))).map
        (fun it => (it.code, it.description, totalOr0 it))))
  let matched_patterns := groupMatches.filter (fun m => m.2 ≠ [])
  if matched_patterns.length > 1 then
    let potential_impact : Rat :=
      (matched_patterns.map (fun m =>
        if g.overlap_item = some m.1 then (m.2.map (fun x => x.2.2)).sum
        else 0)).sum
    let affected_items : List String :=
      matched_patterns.flatMap (fun m =>
        m.2.map (fun x => x.1 ++ ": " ++ x.2.1))
    let (c', fid) := generate_finding_id c
    (c', fs ++
     [{ finding_id := fid, category := .leakage, severity := .warning,
        rule_name := "Double-Dip Detection",
        title := "Potential Overlap: " ++
          pyTitle (g.name.map (fun ch => if ch = '_' then ' ' else ch)),
        description := g.groupDescription,
        affected_items := affected_items,
        potential_impact := if potential_impact > 0 then some potential_impact else none,
        recommendation :=
          some "Review line items for potential overlap. Verify if both charges are justified.",
        evidence := [("group", .s g.name),
                     ("matched_patterns", .ls (matched_patterns.map Prod.fst))] }])
  else (c, fs)

/-- `GeneralRepairValidator._validate_double_dip` (GEN-001). -/
def validate_double_dip (counter : Nat) (claim : ClaimData) :
    Nat × List AuditFinding :=
  DOUBLE_DIP_GROUPS.foldl (fun st g => checkDoubleDipGroup st claim g) (counter, [])

/-- `GeneralRepairValidator._validate_content_protection` (GEN-002). -/
def validate_content_protection (counter : Nat) (claim : ClaimData) :
    Nat × List AuditFinding :=
  let flooring_items :=
    (claim.line_items.filter (fun it => reSearch flooringWorkRe (combinedText it))).map
      (fun it => it.code ++ ": " ++ it.description)
  let has_flooring_work := flooring_items ≠ []
  let has_content_manipulation :=
    claim.line_items.any (fun it => reSearch contentManipulationRe (combinedText it))
  let has_blocking_padding :=
    claim.line_items.any (fun it => reSearch blockingPaddingRe (combinedText it))
  if has_flooring_work ∧ ¬(has_content_manipulation ∨ has_blocking_padding) then
    let (c', fid) := generate_finding_id counter
    (c',
     [{ finding_id := fid, category := .supplement_risk, severity := .info,
        rule_name := "Content Protection Check",
        title := "Missing Content Protection for Flooring Work",
        description := "Flooring replacement found but no content manipulation or blocking/padding charges. Furniture may need to be moved.",
        affected_items := flooring_items,
        potential_impact := none,
        recommendation :=
          some "Verify if contents need to be moved or protected. May result in supplement if not included.",
        evidence := [("flooring_work", .b has_flooring_work),
                     ("content_manipulation", .b has_content_manipulation),
                     ("blocking_padding", .b has_blocking_padding)] }])
  else (counter, [])

/-- The labor-minimum patterns of GEN-003, in dict insertion order:
`PLUMB.*MIN|MIN.*PLUMB` etc., IGNORECASE. -/
def laborMinPatterns : List (String × Re) :=
  [("plumber",
    .alt (seqL [litCI "PLUMB", .many (.cls (fun c => c != '\n')), litCI "MIN"])
         (seqL [litCI "MIN", .many (.cls (fun c => c != '\n')), litCI "PLUMB"])),
   ("electrician",
    .alt (seqL [litCI "ELEC", .many (.cls (fun c => c != '\n')), litCI "MIN"])
         (seqL [litCI "MIN", .many (.cls (fun c => c != '\n')), litCI "ELEC"])),
   ("hvac",
    .alt (seqL [litCI "HVAC", .many (.cls (fun c => c != '\n')), litCI "MIN"])
         (seqL [litCI "MIN", .many (.cls (fun c => c != '\n')), litCI "HVAC"])),
   ("general",
    .alt (seqL [.alt (litCI "LABOR") (litCI "LBR"),
                .many (.cls (fun c => c != '\n')), litCI "MIN"])
         (seqL [litCI "MIN", .many (.cls (fun c => c != '\n')),
                .alt (litCI "LABOR") (litCI "LBR")]))]

/-- `GeneralRepairValidator._validate_labor_minimums` (GEN-003): more than
one labor-minimum charge for a trade is flagged with impact = total minus the
first charge. -/
def validate_labor_minimums (counter : Nat) (claim : ClaimData) :
    Nat × List AuditFinding :=
  laborMinPatterns.foldl
    (fun (st : Nat × List AuditFinding) (p : String × Re) =>
      let (c, fs) := st
      let items :=
        (claim.line_items.filter (fun it => reSearch p.2 (combinedText it))).map
          (fun it => (it.code, it.description, totalOr0 it))
      if items.length > 1 then
        let total_minimums := (items.map (fun x => x.2.2)).sum
        let affected := items.map (fun x => x.1 ++ ": " ++ x.2.1)
        let firstTotal := ((items.map (fun x => x.2.2)).headD 0)
        let (c', fid) := generate_finding_id c
        (c', fs ++
         [{ finding_id := fid, category := .leakage, severity := .warning,
            rule_name := "Labor Minimum Check",
            title := "Multiple " ++ pyTitle p.1 ++ " Labor Minimums",
            description := "Found " ++ toString items.length ++
              " labor minimum charges for " ++ p.1 ++
              ". Multiple minimums for the same trade may not be appropriate.",
            affected_items := affected,
            potential_impact := some (total_minimums - firstTotal),
            recommendation :=
              some "Review if multiple labor minimums are justified. Typically only one minimum per trade per project.",
            evidence := [("trade", .s p.1),
                         ("minimum_count", .i (items.length : Int))] }])
      else (c, fs))
    (counter, [])

/-- `service_call_pattern` of GEN-004:
`(SERVICE\s*CALL|TRIP\s*CHARGE|MOBILIZATION|SETUP)`, IGNORECASE. -/
def serviceCallRe : Re :=
  altL [seqL [litCI "SERVICE", .many (.cls isSpaceChar), litCI "CALL"],
        seqL [litCI "TRIP", .many (.cls isSpaceChar), litCI "CHARGE"],
        litCI "MOBILIZATION", litCI "SETUP"]

/-- `GeneralRepairValidator._validate_trade_coordination` (GEN-004): more
than two service calls are flagged with impact = 25% of their total. -/
def validate_trade_coordination (counter : Nat) (claim : ClaimData) :
    Nat × List AuditFinding :=
  let service_calls :=
    (claim.line_items.filter (fun it => reSearch serviceCallRe (combinedText it))).map
      (fun it => (it.code, it.description, totalOr0 it))
  if service_calls.length > 2 then
    let total_service := (service_calls.map (fun x => x.2.2)).sum
    let affected := service_calls.map (fun x => x.1 ++ ": " ++ x.2.1)
    let (c', fid) := generate_finding_id counter
    (c',
     [{ finding_id := fid, category := .leakage, severity := .info,
        rule_name := "Trade Coordination Check",
        title := "Multiple Service Calls",
        description := "Found " ++ toString service_calls.length ++
          " service call/trip charges. Some trades may be able to coordinate visits.",
        affected_items := affected,
        potential_impact := some (total_service * (1 / 4)),
        recommendation :=
          some "Review if any trades can combine visits to reduce service call charges.",
        evidence := [("service_call_count", .i (service_calls.length : Int)),
                     ("total_charges", .s (ratToStr total_service))] }])
  else (counter, [])

/-- `GeneralRepairValidator.validate`: `execute_all` runs GEN-001 … GEN-004
in registration order over the module's own registry. -/
def general_repair_validate (counter : Nat) (claim : ClaimData) :
    Nat × List AuditFinding :=
  let (c1, f1) := validate_double_dip counter claim
  let (c2, f2) := validate_content_protection c1 claim
  let (c3, f3) := validate_labor_minimums c2 claim
  let (c4, f4) := validate_trade_coordination c3 claim
  (c4, f1 ++ f2 ++ f3 ++ f4)

/-! ## Orchestrator (`engine.py`) -/

/-- The module-enable options of `ClaimIntegrityEngine.__init__`. -/
structure EngineOpts where
  enable_financial : Bool := true
  enable_water_remediation : Bool := true
  enable_flooring : Bool := true
  enable_general_repair : Bool := true
deriving DecidableEq, Repr

/-- `ClaimIntegrityEngine.audit` with PII redaction disabled (the default:
`auto_redact_pii = False` and no override), for a freshly constructed engine
(each validator module owns a fresh `RuleEngine` whose finding counter starts
at 0): run the enabled modules in the fixed order financial → water
remediation → flooring → general repair, record the module names, hand all
findings to the `ScorecardBuilder`, and build. -/
def audit (opts : EngineOpts) (claim : ClaimData) : AuditScorecard :=
  let (fsF, modsF) :=
    if opts.enable_financial then
      ((financial_validate 0 claim).2, ["Financial Validation"])
    else ([], [])
  let (fsW, modsW) :=
    if opts.enable_water_remediation then
      ((water_remediation_validate 0 claim).2, ["Water Remediation (WTR)"])
    else ([], [])
  let (fsFl, modsFl) :=
    if opts.enable_flooring then
      ((flooring_validate 0 claim).2, ["Flooring (FCC/FNC)"])
    else ([], [])
  let (fsG, modsG) :=
    if opts.enable_general_repair then
      ((general_repair_validate 0 claim).2, ["General Repair"])
    else ([], [])
  buildScorecard claim (modsF ++ modsW ++ modsFl ++ modsG)
    (fsF ++ fsW ++ fsFl ++ fsG)


/-! ## Definitions used by the verification statements -/

/-- Sum of `potential_impact` over findings of category `leakage` that carry
an impact. -/
def leakageImpactSum (fs : List AuditFinding) : Rat :=
  (fs.filterMap (fun f =>
    if f.category = AuditCategory.leakage then f.potential_impact else none)).sum

/-- Sum of `potential_impact` over findings of category `supplement_risk`
that carry an impact. -/
def supplementImpactSum (fs : List AuditFinding) : Rat :=
  (fs.filterMap (fun f =>
    if f.category = AuditCategory.supplement_risk then f.potential_impact else none)).sum

/-- The scorecard summary invariant of the specification: `total_findings`
counts the findings, the three category counters partition it, and the two
impact totals equal the corresponding impact sums. -/
def summaryInvariant (sc : AuditScorecard) : Prop :=
  sc.summary.total_findings = sc.findings.length ∧
  sc.summary.financial_findings + sc.summary.leakage_findings +
      sc.summary.supplement_risk_findings = sc.summary.total_findings ∧
  sc.summary.total_potential_leakage = leakageImpactSum sc.findings ∧
  sc.summary.total_supplement_risk = supplementImpactSum sc.findings

/-- Modelled from the spec's words (for comparison with the code's
`air_mover_count`): `A = Σ quantities of items matching air_mover`, with the
raw (unfloored) quantities. -/
def specAirMoverQuantitySum (claim : ClaimData) : Rat :=
  ((air_mover_matches claim).map LineItem.quantity).sum

/-- No redactor pattern matches anywhere in the string. -/
def matchFreeAll (s : List Char) : Bool :=
  redactorPatterns.all (fun r => (findall r s).isEmpty) &&
    (findall addressRe s).isEmpty && (findall nameTitleRe s).isEmpty

/-- Membership of a key/value binding in dict entries. -/
def PyEntries.Mem (k : List Char) (v : PyVal) : PyEntries → Prop
  | .nil => False
  | .cons k' v' rest => (k' = k ∧ v' = v) ∨ PyEntries.Mem k v rest

/-! Concrete inputs for witnesses and counterexamples. -/

/-- A policy with a zero deductible and ample limits. -/
def scenarioPolicy : PolicyCoverage :=
  { deductible := 0, coverage_a := 1000000, coverage_b := 1000000,
    coverage_c := 1000000 }

/-- The spec's air-mover leakage scenario item: `WTR_AIRF`, quantity 12 at
$35. -/
def scenarioItem : LineItem :=
  mkLineItem { code := "WTR_AIRF", description := "Air Mover", quantity := 12,
               unit_price := 35 }

/-- Two affected rooms totalling 150 sq ft. -/
def scenarioProperty : PropertyDetails :=
  mkPropertyDetails { affected_rooms :=
    [{ name := "Living Room", sqft := 75 }, { name := "Hallway", sqft := 75 }] }

/-- The spec's air-mover leakage scenario claim (also exercises FIN-001,
since the deductible is zero). -/
def scenarioClaim : ClaimData :=
  mkClaimData { claim_id := "CLM-2024-001", policy := scenarioPolicy,
                line_items := [scenarioItem],
                property_details := scenarioProperty }

/-- An air-mover item with a fractional quantity `2.5`. -/
def fractionalItem : LineItem :=
  mkLineItem { code := "AIRF", description := "fan unit", quantity := 5 / 2,
               unit_price := 35 }

/-- A claim with a fractional air-mover quantity over 100 affected sq ft. -/
def fractionalClaim : ClaimData :=
  mkClaimData { claim_id := "CLM-FRac",
                policy := { deductible := 500, coverage_a := 1000000,
                            coverage_b := 1000000, coverage_c := 1000000 },
                line_items := [fractionalItem],
                property_details := mkPropertyDetails { total_affected_sqft := some 100 } }

/-- The raw record of a claim with no line items and no supplied
`gross_claim`. -/
def emptyItemsClaimRaw : ClaimData :=
  { claim_id := "CLM-EMPTY",
    policy := { deductible := 500, coverage_a := 100000,
                coverage_b := 50000, coverage_c := 25000 } }

/-- A claim with no line items and no supplied `gross_claim`. -/
def emptyItemsClaim : ClaimData := mkClaimData emptyItemsClaimRaw

/-- A validator that always raises (`str(e) = "boom"`,
`type(e).__name__ = "ValueError"`). -/
def raisingRule : AuditRule :=
  { rule_id := "WTR-999", name := "Raising Rule",
    description := "a rule whose validator raises",
    category := AuditCategory.leakage, severity := AuditSeverity.warning,
    validator := some (fun _ _ => .error { message := "boom", excType := "ValueError" }) }

/-- A small registered rule for the registry witnesses. -/
def regRuleA : AuditRule :=
  { rule_id := "FIN-001", name := "Deductible Application",
    description := "deductible check", category := AuditCategory.financial,
    severity := AuditSeverity.error }

/-- A second registered rule sharing the category. -/
def regRuleB : AuditRule :=
  { rule_id := "FIN-002", name := "Coverage A Limit",
    description := "coverage check", category := AuditCategory.financial,
    severity := AuditSeverity.critical }

/-- A two-rule registry state with a faithful category index. -/
def regStateAB : RegState :=
  { rules := [("FIN-001", regRuleA), ("FIN-002", regRuleB)],
    catIndex := fun c =>
      if c = AuditCategory.financial then ["FIN-001", "FIN-002"] else [] }

/-- A sample finding used by witnesses. -/
def sampleFinding : AuditFinding :=
  { finding_id := "FND-000001", category := AuditCategory.leakage,
    severity := AuditSeverity.warning, rule_name := "Air Mover Count Audit",
    title := "Excessive Air Mover Count", description := "sample",
    potential_impact := some 315 }


/-- A raw line item without a supplied total. -/
def witRawItem : LineItem :=
  { code := "FCC_CPT", description := "Carpet Install", quantity := 3,
    unit_price := 7 }

/-- A raw property with one affected and one unaffected room and no supplied
total. -/
def witRawProperty : PropertyDetails :=
  { affected_rooms := [{ name := "A", sqft := 10 },
                       { name := "B", sqft := 5, affected := false }] }

/-- A raw claim without supplied `gross_claim` / `net_claim`. -/
def witRawClaim : ClaimData :=
  { claim_id := "W",
    policy := { deductible := 2, coverage_a := 100, coverage_b := 100,
                coverage_c := 100 },
    line_items := [mkLineItem witRawItem] }

/-- A raw claim with a supplied `gross_claim` and no `net_claim`. -/
def witRawClaim2 : ClaimData :=
  { claim_id := "W2",
    policy := { deductible := 2, coverage_a := 100, coverage_b := 100,
                coverage_c := 100 },
    gross_claim := some 50 }

/-- Dict entries with a numeric value under the key `ssn`. -/
def ssnNumEntries : PyEntries :=
  .cons "ssn".data (.vnum 123456789) .nil

/-- Dict entries with a string value under the key `claimant_name`. -/
def nameStrEntries : PyEntries :=
  .cons "claimant_name".data (.vstr "Pat Doe".data) .nil

/-! ## Helper lemmas -/

theorem add_finding_findings (sc : AuditScorecard) (f : AuditFinding) :
    (add_finding sc f).findings = sc.findings ++ [f] := by
  unfold add_finding
  cases f.category <;> cases f.potential_impact <;> simp

theorem foldl_add_finding_findings (fs : List AuditFinding) (sc : AuditScorecard) :
    (fs.foldl add_finding sc).findings = sc.findings ++ fs := by
  induction fs generalizing sc with
  | nil => simp
  | cons f rest ih => simp [List.foldl_cons, ih, add_finding_findings]

theorem addModule_findings (sc : AuditScorecard) (m : String) :
    (addModule sc m).findings = sc.findings ∧ (addModule sc m).summary = sc.summary := by
  unfold addModule
  split <;> simp

theorem foldl_addModule_findings (ms : List String) (sc : AuditScorecard) :
    (ms.foldl addModule sc).findings = sc.findings ∧
    (ms.foldl addModule sc).summary = sc.summary := by
  induction ms generalizing sc with
  | nil => exact ⟨rfl, rfl⟩
  | cons m rest ih =>
    simp only [List.foldl_cons]
    exact ⟨((ih _).1).trans (addModule_findings sc m).1,
           ((ih _).2).trans (addModule_findings sc m).2⟩

theorem calculate_risk_score_fields (sc : AuditScorecard) :
    (calculate_risk_score sc).findings = sc.findings ∧
    (calculate_risk_score sc).summary.total_findings = sc.summary.total_findings ∧
    (calculate_risk_score sc).summary.financial_findings = sc.summary.financial_findings ∧
    (calculate_risk_score sc).summary.leakage_findings = sc.summary.leakage_findings ∧
    (calculate_risk_score sc).summary.supplement_risk_findings
      = sc.summary.supplement_risk_findings ∧
    (calculate_risk_score sc).summary.total_potential_leakage
      = sc.summary.total_potential_leakage ∧
    (calculate_risk_score sc).summary.total_supplement_risk
      = sc.summary.total_supplement_risk := by
  unfold calculate_risk_score
  split <;> simp

theorem leakageImpactSum_append (l : List AuditFinding) (f : AuditFinding) :
    leakageImpactSum (l ++ [f]) =
      leakageImpactSum l +
        (if f.category = AuditCategory.leakage then f.potential_impact.getD 0 else 0) := by
  unfold leakageImpactSum
  rw [List.filterMap_append, List.sum_append]
  congr 1
  cases hc : f.category <;> cases hi : f.potential_impact <;>
    simp [List.filterMap, hc, hi]

theorem supplementImpactSum_append (l : List AuditFinding) (f : AuditFinding) :
    supplementImpactSum (l ++ [f]) =
      supplementImpactSum l +
        (if f.category = AuditCategory.supplement_risk then f.potential_impact.getD 0 else 0) := by
  unfold supplementImpactSum
  rw [List.filterMap_append, List.sum_append]
  congr 1
  cases hc : f.category <;> cases hi : f.potential_impact <;>
    simp [List.filterMap, hc, hi]

theorem add_finding_preserves_invariant (sc : AuditScorecard) (f : AuditFinding)
    (h : summaryInvariant sc) : summaryInvariant (add_finding sc f) := by
  obtain ⟨h1, h2, h3, h4⟩ := h
  unfold summaryInvariant
  rw [add_finding_findings, leakageImpactSum_append, supplementImpactSum_append]
  unfold add_finding
  cases hc : f.category <;> cases hi : f.potential_impact <;>
    simp only [hc, hi] <;> (try split) <;>
    refine ⟨?_, ?_, ?_, ?_⟩ <;> simp_all <;> omega

theorem foldl_add_finding_invariant (fs : List AuditFinding) (sc : AuditScorecard)
    (h : summaryInvariant sc) : summaryInvariant (fs.foldl add_finding sc) := by
  induction fs generalizing sc with
  | nil => exact h
  | cons f rest ih => exact ih _ (add_finding_preserves_invariant sc f h)

theorem calculate_risk_score_invariant (sc : AuditScorecard)
    (h : summaryInvariant sc) : summaryInvariant (calculate_risk_score sc) := by
  obtain ⟨h1, h2, h3, h4⟩ := h
  obtain ⟨g0, g1, g2, g3, g4, g5, g6⟩ := calculate_risk_score_fields sc
  exact ⟨by rw [g1, g0, h1], by rw [g2, g3, g4, g1]; exact h2,
         by rw [g5, g0]; exact h3, by rw [g6, g0]; exact h4⟩

theorem initScorecard_invariant (claim : ClaimData) (mods : List String) :
    summaryInvariant (mods.foldl addModule (initScorecard claim)) := by
  unfold summaryInvariant
  rw [(foldl_addModule_findings mods _).1, (foldl_addModule_findings mods _).2]
  simp [initScorecard, leakageImpactSum, supplementImpactSum]

theorem buildScorecard_invariant (claim : ClaimData) (mods : List String)
    (fs : List AuditFinding) : summaryInvariant (buildScorecard claim mods fs) := by
  unfold buildScorecard
  exact calculate_risk_score_invariant _
    (foldl_add_finding_invariant fs _ (initScorecard_invariant claim mods))


theorem buildScorecard_findings (claim : ClaimData) (mods : List String)
    (fs : List AuditFinding) : (buildScorecard claim mods fs).findings = fs := by
  unfold buildScorecard
  rw [(calculate_risk_score_fields _).1, foldl_add_finding_findings,
      (foldl_addModule_findings mods _).1]
  simp [initScorecard]

theorem buildScorecard_risk_score (claim : ClaimData) (mods : List String)
    (fs : List AuditFinding) :
    (buildScorecard claim mods fs).summary.risk_score
      = min 100 (((fs.map (fun f => severityWeight f.severity)).sum : Nat) : Rat) := by
  unfold buildScorecard calculate_risk_score
  have hf : (fs.foldl add_finding (mods.foldl addModule (initScorecard claim))).findings = fs := by
    rw [foldl_add_finding_findings, (foldl_addModule_findings mods _).1]
    simp [initScorecard]
  split
  · rename_i hemp
    rw [hf] at hemp
    rw [List.isEmpty_iff] at hemp
    simp [hemp]
  · rw [hf]

/-- C1.  For every scorecard built by the aggregator — in particular every
scorecard produced by `audit` — and after every `add_finding` call,
`summary.total_findings` equals the number of findings, the three category
counters sum to it, and `total_potential_leakage` / `total_supplement_risk`
equal the sums of `potential_impact` over leakage / supplement-risk findings
that carry an impact. -/
theorem c1_summary_counters_invariant :
    (∀ (sc : AuditScorecard) (f : AuditFinding),
        summaryInvariant sc → summaryInvariant (add_finding sc f)) ∧
    (∀ (claim : ClaimData) (mods : List String) (fs : List AuditFinding),
        summaryInvariant (buildScorecard claim mods fs)) ∧
    (∀ (opts : EngineOpts) (claim : ClaimData),
        summaryInvariant (audit opts claim)) := by
  refine ⟨add_finding_preserves_invariant, buildScorecard_invariant, ?_⟩
  intro opts claim
  obtain ⟨ef, ew, efl, eg⟩ := opts
  cases ef <;> cases ew <;> cases efl <;> cases eg <;>
    exact buildScorecard_invariant _ _ _

/-- Witness for C1: the invariant after a concrete `add_finding` on a
concretely built scorecard. -/
theorem c1_summary_counters_invariant_witness :
    summaryInvariant (add_finding (buildScorecard scenarioClaim [] []) sampleFinding) :=
  c1_summary_counters_invariant.1 _ sampleFinding
    (c1_summary_counters_invariant.2.1 scenarioClaim [] [])

/-- C2.  The risk score set at build time equals
`min(100, Σ w(severity))` with `w(info)=5, w(warning)=15, w(error)=30,
w(critical)=50`; with no findings it is `0`; consequently it always lies in
`[0, 100]`. -/
theorem c2_risk_score_formula :
    (∀ (claim : ClaimData) (mods : List String) (fs : List AuditFinding),
        (buildScorecard claim mods fs).summary.risk_score
          = min 100 (((fs.map (fun f => severityWeight f.severity)).sum : Nat) : Rat)) ∧
    (∀ (claim : ClaimData) (mods : List String),
        (buildScorecard claim mods []).summary.risk_score = 0) ∧
    (∀ (claim : ClaimData) (mods : List String) (fs : List AuditFinding),
        0 ≤ (buildScorecard claim mods fs).summary.risk_score ∧
        (buildScorecard claim mods fs).summary.risk_score ≤ 100) ∧
    (severityWeight .info = 5 ∧ severityWeight .warning = 15 ∧
      severityWeight .error = 30 ∧ severityWeight .critical = 50) := by
  refine ⟨buildScorecard_risk_score, ?_, ?_, by decide⟩
  · intro claim mods
    rw [buildScorecard_risk_score]
    norm_num
  · intro claim mods fs
    rw [buildScorecard_risk_score]
    constructor
    · exact le_min (by norm_num) (Nat.cast_nonneg _)
    · exact min_le_left _ _


/-- C3.  For every enabled rule with a validator, if the validator raises
then `execute_rule` yields exactly one synthetic finding carrying the rule's
category and declared severity, the title `Rule Execution Error: <name>`,
and evidence with the error message and error type; execution is total, so
the audit continues and no exception escapes once the claim is constructed. -/
theorem c3_rule_error_containment :
    ∀ (counter : Nat) (rule : AuditRule) (claim : ClaimData) (ctx : RuleCtx)
      (v : ClaimData → RuleCtx → Except PyErr (List AuditFinding)) (e : PyErr),
      rule.enabled = true → rule.validator = some v → v claim ctx = .error e →
      ∃ f, execute_rule counter rule claim ctx = (counter + 1, [f]) ∧
        f.category = rule.category ∧
        f.severity = rule.severity ∧
        f.title = "Rule Execution Error: " ++ rule.name ∧
        f.description = "Error executing rule: " ++ e.message ∧
        f.evidence = [("error", .s e.message), ("error_type", .s e.excType)] := by
  intro counter rule claim ctx v e hen hval hrun
  simp only [execute_rule, hen, hval, hrun, Bool.not_true, Bool.false_eq_true,
             if_false, create_finding, generate_finding_id]
  exact ⟨_, rfl, rfl, rfl, rfl, rfl, rfl⟩

/-- Witness for C3: a concrete always-raising rule yields exactly the one
synthetic error finding. -/
theorem c3_rule_error_containment_witness :
    ∃ f, execute_rule 0 raisingRule scenarioClaim [] = (1, [f]) ∧
      f.category = raisingRule.category ∧
      f.severity = raisingRule.severity ∧
      f.title = "Rule Execution Error: " ++ raisingRule.name ∧
      f.description = "Error executing rule: " ++ "boom" ∧
      f.evidence = [("error", .s "boom"), ("error_type", .s "ValueError")] :=
  c3_rule_error_containment 0 raisingRule scenarioClaim []
    (fun _ _ => .error { message := "boom", excType := "ValueError" })
    { message := "boom", excType := "ValueError" } rfl rfl rfl


theorem digitChar_inj : ∀ a < 10, ∀ b < 10, digitChar a = digitChar b → a = b := by
  decide

theorem digitChar_isDigit : ∀ d < 10, (digitChar d).isDigit = true := by
  decide

theorem sixDigits_inj (m n : Nat) (hm : m < 1000000) (hn : n < 1000000)
    (h : sixDigits m = sixDigits n) : m = n := by
  simp only [sixDigits, List.cons.injEq, and_true] at h
  obtain ⟨h1, h2, h3, h4, h5, h6⟩ := h
  have d10 : (0 : Nat) < 10 := by norm_num
  have e1 := digitChar_inj _ (Nat.mod_lt _ d10) _ (Nat.mod_lt _ d10) h1
  have e2 := digitChar_inj _ (Nat.mod_lt _ d10) _ (Nat.mod_lt _ d10) h2
  have e3 := digitChar_inj _ (Nat.mod_lt _ d10) _ (Nat.mod_lt _ d10) h3
  have e4 := digitChar_inj _ (Nat.mod_lt _ d10) _ (Nat.mod_lt _ d10) h4
  have e5 := digitChar_inj _ (Nat.mod_lt _ d10) _ (Nat.mod_lt _ d10) h5
  have e6 := digitChar_inj _ (Nat.mod_lt _ d10) _ (Nat.mod_lt _ d10) h6
  omega

theorem data_mkFindingId (n : Nat) (h : n < 1000000) :
    (mkFindingId n).data = 'F' :: 'N' :: 'D' :: '-' :: sixDigits n := by
  unfold mkFindingId fmt06
  rw [if_pos h]
  rfl

theorem mkFindingId_inj (m n : Nat) (hm : m ≤ 999999) (hn : n ≤ 999999)
    (h : mkFindingId m = mkFindingId n) : m = n := by
  have hd := congrArg String.data h
  rw [data_mkFindingId m (by omega), data_mkFindingId n (by omega)] at hd
  simp only [List.cons.injEq, true_and] at hd
  exact sixDigits_inj m n (by omega) (by omega) hd

theorem matchesFnd_mkFindingId (n : Nat) (hn : n ≤ 999999) :
    matchesFndPattern (mkFindingId n) = true := by
  unfold matchesFndPattern
  rw [data_mkFindingId n (by omega)]
  have hall : ∀ k : Nat, (digitChar (k % 10)).isDigit = true := fun k =>
    digitChar_isDigit _ (Nat.mod_lt _ (by norm_num))
  simp [sixDigits, hall]

theorem mem_issuedIds (c k : Nat) (id : String) (h : id ∈ issuedIds c k) :
    ∃ j, c < j ∧ j ≤ c + k ∧ id = mkFindingId j := by
  induction k generalizing c with
  | zero => simp [issuedIds] at h
  | succ k ih =>
    simp only [issuedIds, generate_finding_id, List.mem_cons] at h
    rcases h with h | h
    · exact ⟨c + 1, by omega, by omega, h⟩
    · obtain ⟨j, hj1, hj2, hj3⟩ := ih (c + 1) h
      exact ⟨j, by omega, by omega, hj3⟩

theorem issuedIds_nodup (c k : Nat) (h : c + k ≤ 999999) :
    (issuedIds c k).Nodup := by
  induction k generalizing c with
  | zero => simp [issuedIds]
  | succ k ih =>
    simp only [issuedIds, generate_finding_id]
    refine List.nodup_cons.2 ⟨?_, ih (c + 1) (by omega)⟩
    intro hmem
    obtain ⟨j, hj1, hj2, hj3⟩ := mem_issuedIds _ _ _ hmem
    have := mkFindingId_inj (c + 1) j (by omega) (by omega) hj3
    omega

/-- C4 (amended).  Within a single rule registry, `generate_finding_id`
issues ids `FND-` + the counter zero-padded to six digits; while the counter
stays at most 999999 the ids are pairwise distinct, match `^FND-\d{6}$`, and
carry strictly increasing numeric parts (`issuedIds` enumerates counters
`c+1, …, c+k` in order).  Each validator module owns its own registry with an
independent counter, so ids are unique per registry — not across the whole
audit (see the counterexample). -/
theorem c4_registry_finding_ids :
    (∀ m n : Nat, m ≤ 999999 → n ≤ 999999 → m ≠ n → mkFindingId m ≠ mkFindingId n) ∧
    (∀ n : Nat, n ≤ 999999 → matchesFndPattern (mkFindingId n) = true) ∧
    (∀ c k : Nat, issuedIds c k = (List.range k).map (fun i => mkFindingId (c + 1 + i))) ∧
    (∀ c k : Nat, c + k ≤ 999999 →
      (issuedIds c k).Nodup ∧ ∀ id ∈ issuedIds c k, matchesFndPattern id = true) := by
  refine ⟨?_, matchesFnd_mkFindingId, ?_, ?_⟩
  · intro m n hm hn hne h
    exact hne (mkFindingId_inj m n hm hn h)
  · intro c k
    induction k generalizing c with
    | zero => simp [issuedIds]
    | succ k ih =>
      show mkFindingId (c + 1) :: issuedIds (c + 1) k
          = (List.range (k + 1)).map (fun i => mkFindingId (c + 1 + i))
      rw [ih (c + 1), List.range_succ_eq_map, List.map_cons, List.map_map]
      simp only [List.cons.injEq]
      constructor
      · trivial
      · apply List.map_congr_left
        intro i _
        simp only [Function.comp_apply]
        congr 1
        omega
  · intro c k h
    refine ⟨issuedIds_nodup c k h, ?_⟩
    intro id hid
    obtain ⟨j, hj1, hj2, hj3⟩ := mem_issuedIds _ _ _ hid
    rw [hj3]
    exact matchesFnd_mkFindingId j (by omega)

/-- Witness for C4 (amended) at concrete counters. -/
theorem c4_registry_finding_ids_witness :
    mkFindingId 1 ≠ mkFindingId 2 ∧
    matchesFndPattern (mkFindingId 1) = true ∧
    (issuedIds 0 3).Nodup :=
  ⟨c4_registry_finding_ids.1 1 2 (by norm_num) (by norm_num) (by norm_num),
   c4_registry_finding_ids.2.1 1 (by norm_num),
   (c4_registry_finding_ids.2.2.2 0 3 (by norm_num)).1⟩

/-- C4 counterexample: one audit of the spec's own air-mover scenario (zero
deductible) produces two findings — FIN-001 from the financial module's
registry and WTR-001 from the water-remediation module's registry — whose
finding ids are both `FND-000001`, because each module owns an independent
counter.  The finding ids on one scorecard are therefore not pairwise
distinct. -/
theorem c4_counterexample :
    ((audit {} scenarioClaim).findings.map (fun f => f.finding_id))
      = ["FND-000001", "FND-000001"] ∧
    ¬ ((audit {} scenarioClaim).findings.map (fun f => f.finding_id)).Nodup := by
  constructor
  · decide
  · decide


/-- C5 (amended).  Derived-field construction: a `LineItem` without `total`
gets `quantity * unit_price`; a `PropertyDetails` without
`total_affected_sqft` gets the affected-room sqft sum *provided the room
list is non-empty*; a `ClaimData` without `gross_claim` gets the sum of item
totals *provided `line_items` is non-empty*, and without `net_claim` gets
`max(0, gross − deductible)` whenever a gross amount is present (supplied or
derived).  With an empty component list the derived field simply stays
absent (see the counterexample), and re-deriving any derived value
reproduces the stored one. -/
theorem c5_derived_fields :
    (∀ it : LineItem, it.total = none →
      (mkLineItem it).total = some (it.quantity * it.unit_price)) ∧
    (∀ p : PropertyDetails, p.total_affected_sqft = none → p.affected_rooms ≠ [] →
      (mkPropertyDetails p).total_affected_sqft
        = some (affectedSqftSum p.affected_rooms)) ∧
    (∀ c : ClaimData, c.gross_claim = none → c.line_items ≠ [] →
      (mkClaimData c).gross_claim = some (sumTotals c.line_items)) ∧
    (∀ c : ClaimData, c.gross_claim = none → c.net_claim = none →
      c.line_items ≠ [] →
      (mkClaimData c).net_claim
        = some (max 0 (sumTotals c.line_items - c.policy.deductible))) ∧
    (∀ (c : ClaimData) (g : Rat), c.gross_claim = some g → c.net_claim = none →
      (mkClaimData c).net_claim = some (max 0 (g - c.policy.deductible))) := by
  refine ⟨?_, ?_, ?_, ?_, ?_⟩
  · intro it h
    simp [mkLineItem, h]
  · intro p h1 h2
    simp [mkPropertyDetails, h1, h2]
  · intro c h1 h2
    unfold mkClaimData
    rw [if_pos ⟨h1, h2⟩]
    cases hn : c.net_claim <;> simp [hn]
  · intro c h1 h2 h3
    unfold mkClaimData
    rw [if_pos ⟨h1, h3⟩]
    simp [h2]
  · intro c g hg hn
    unfold mkClaimData
    rw [if_neg (by simp [hg])]
    simp [hg, hn]

/-- Witness for C5 (amended) at concrete records. -/
theorem c5_derived_fields_witness :
    (mkLineItem witRawItem).total = some (witRawItem.quantity * witRawItem.unit_price) ∧
    (mkPropertyDetails witRawProperty).total_affected_sqft
      = some (affectedSqftSum witRawProperty.affected_rooms) ∧
    (mkClaimData witRawClaim).gross_claim = some (sumTotals witRawClaim.line_items) ∧
    (mkClaimData witRawClaim).net_claim
      = some (max 0 (sumTotals witRawClaim.line_items - witRawClaim.policy.deductible)) ∧
    (mkClaimData witRawClaim2).net_claim
      = some (max 0 (50 - witRawClaim2.policy.deductible)) :=
  ⟨c5_derived_fields.1 witRawItem rfl,
   c5_derived_fields.2.1 witRawProperty rfl (by decide),
   c5_derived_fields.2.2.1 witRawClaim rfl (by decide),
   c5_derived_fields.2.2.2.1 witRawClaim rfl rfl (by decide),
   c5_derived_fields.2.2.2.2 witRawClaim2 50 rfl rfl⟩

/-- C5 counterexample: a claim constructed without `gross_claim` and with an
empty `line_items` list keeps `gross_claim = None` — it does not equal the
(empty) sum of item totals, which is `0`.  Likewise `PropertyDetails` with
no rooms keeps `total_affected_sqft = None`. -/
theorem c5_counterexample :
    (mkClaimData emptyItemsClaimRaw).gross_claim = none ∧
    sumTotals emptyItemsClaimRaw.line_items = 0 ∧
    ¬ (mkClaimData emptyItemsClaimRaw).gross_claim
        = some (sumTotals emptyItemsClaimRaw.line_items) ∧
    (mkPropertyDetails { }).total_affected_sqft = none ∧
    ¬ (mkPropertyDetails { }).total_affected_sqft = some (affectedSqftSum []) := by
  refine ⟨by decide, by decide, by decide, by decide, by decide⟩


theorem mem_redact_dict_pii_str :
    ∀ (d : PyEntries) (k s : List Char),
      PyEntries.Mem k (.vstr s) d → is_pii_field (lowerL k) = true →
      PyEntries.Mem k (.vstr REDACTED) (redact_dict d)
  | .nil, _, _, hmem, _ => hmem.elim
  | .cons k' v' rest, k, s, hmem, hpii => by
    rcases hmem with ⟨hk, hv⟩ | hmem
    · subst hk
      subst hv
      simp [redact_dict, PyEntries.Mem, hpii]
    · cases v' <;> simp only [redact_dict, PyEntries.Mem] <;>
        exact Or.inr (mem_redact_dict_pii_str rest k s hmem hpii)

theorem mem_redact_dict_num :
    ∀ (d : PyEntries) (k : List Char) (q : Rat),
      PyEntries.Mem k (.vnum q) d →
      PyEntries.Mem k (.vnum q) (redact_dict d)
  | .nil, _, _, hmem => hmem.elim
  | .cons k' v' rest, k, q, hmem => by
    rcases hmem with ⟨hk, hv⟩ | hmem
    · subst hk
      subst hv
      simp [redact_dict, PyEntries.Mem]
    · cases v' <;> simp only [redact_dict, PyEntries.Mem] <;>
        exact Or.inr (mem_redact_dict_num rest k q hmem)

/-- C6 (amended).  In `redact_dict`, a key whose lowercased name is in the
PII-field set or contains a PII field name as a substring has its value
replaced by the literal `[REDACTED]` whenever that value is a *string* —
regardless of the string's content.  Non-string scalar values pass through
unchanged even under a PII-named key (see the counterexample), and dict /
list values are recursed into rather than replaced. -/
theorem c6_pii_field_redaction :
    (∀ (d : PyEntries) (k s : List Char),
      PyEntries.Mem k (.vstr s) d → is_pii_field (lowerL k) = true →
      PyEntries.Mem k (.vstr REDACTED) (redact_dict d)) ∧
    (∀ (d : PyEntries) (k : List Char) (q : Rat),
      PyEntries.Mem k (.vnum q) d →
      PyEntries.Mem k (.vnum q) (redact_dict d)) :=
  ⟨mem_redact_dict_pii_str, mem_redact_dict_num⟩

/-- Witness for C6 (amended): the string under `claimant_name` is wholly
replaced by the placeholder. -/
theorem c6_pii_field_redaction_witness :
    PyEntries.Mem "claimant_name".data (.vstr REDACTED) (redact_dict nameStrEntries) :=
  c6_pii_field_redaction.1 nameStrEntries "claimant_name".data "Pat Doe".data
    (by simp [nameStrEntries, PyEntries.Mem])
    (by decide)

/-- C6 counterexample: the key `ssn` is a PII field, yet a *numeric* value
stored under it survives `redact_dict` unchanged — the whole-value
replacement happens only for string values, not "regardless of the value's
type". -/
theorem c6_counterexample :
    redact_dict ssnNumEntries = ssnNumEntries ∧
    is_pii_field (lowerL "ssn".data) = true ∧
    ¬ PyEntries.Mem "ssn".data (.vstr REDACTED) (redact_dict ssnNumEntries) := by
  refine ⟨rfl, by decide, ?_⟩
  intro h
  simp only [ssnNumEntries, redact_dict, PyEntries.Mem] at h
  rcases h with ⟨_, hv⟩ | h
  · exact PyVal.noConfusion hv
  · exact h.elim


theorem pyInt_eq_floor (q : Rat) (h : 0 ≤ q) : pyInt q = ⌊q⌋ := by
  unfold pyInt
  rw [if_neg (not_lt.2 h)]
  have hnum : 0 ≤ q.num := Rat.num_nonneg.2 h
  rw [Rat.floor_def, Int.ofNat_tdiv, Int.toNat_of_nonneg hnum]
  exact Int.tdiv_eq_ediv hnum (Int.natCast_nonneg _)

/-- C7 (amended).  WTR-001 with `A` the sum of the *floored* quantities
(`int(item.quantity)`) over air-mover items and `S = total_affected_sqft`:
nothing is emitted when `A = 0` or `S` is absent or `S ≤ 0`; exactly one
leakage warning with `potential_impact = (A − ⌊S/50⌋) × $35` is emitted when
`A > 1.2 × S/50`; exactly one supplement-risk info finding (no impact) when
instead `A < 0.5 × S/70`; and on the spec's concrete scenario (150 sq ft,
one `WTR_AIRF` item of quantity 12) exactly one warning with impact $315. -/
theorem c7_air_mover_rule :
    (∀ (counter : Nat) (claim : ClaimData),
      air_mover_count_floored claim = 0 →
      validate_air_movers counter claim = (counter, [])) ∧
    (∀ (counter : Nat) (claim : ClaimData),
      claim.property_details.total_affected_sqft = none →
      validate_air_movers counter claim = (counter, [])) ∧
    (∀ (counter : Nat) (claim : ClaimData) (s : Rat),
      claim.property_details.total_affected_sqft = some s → s ≤ 0 →
      validate_air_movers counter claim = (counter, [])) ∧
    (∀ (counter : Nat) (claim : ClaimData) (s : Rat),
      claim.property_details.total_affected_sqft = some s → 0 < s →
      ((air_mover_count_floored claim : Rat) > s / 50 * (6 / 5)) →
      ∃ f, validate_air_movers counter claim = (counter + 1, [f]) ∧
        f.category = AuditCategory.leakage ∧
        f.severity = AuditSeverity.warning ∧
        f.potential_impact
          = some (((air_mover_count_floored claim - pyInt (s / 50)) * 35 : Int) : Rat) ∧
        pyInt (s / 50) = ⌊s / 50⌋) ∧
    (∀ (counter : Nat) (claim : ClaimData) (s : Rat),
      claim.property_details.total_affected_sqft = some s → 0 < s →
      air_mover_count_floored claim ≠ 0 →
      ¬ ((air_mover_count_floored claim : Rat) > s / 50 * (6 / 5)) →
      ((air_mover_count_floored claim : Rat) < s / 70 * (1 / 2)) →
      ∃ f, validate_air_movers counter claim = (counter + 1, [f]) ∧
        f.category = AuditCategory.supplement_risk ∧
        f.severity = AuditSeverity.info ∧
        f.potential_impact = none) ∧
    ((validate_air_movers 0 scenarioClaim).2.map
        (fun f => (f.category, f.severity, f.potential_impact))
      = [(AuditCategory.leakage, AuditSeverity.warning, some 315)]) := by
  refine ⟨?_, ?_, ?_, ?_, ?_, by decide⟩
  · intro counter claim h
    simp only [validate_air_movers, h]
    simp
  · intro counter claim h
    simp only [validate_air_movers, h]
    split <;> rfl
  · intro counter claim s h hs
    simp only [validate_air_movers, h]
    split
    · rfl
    · simp [hs]
  · intro counter claim s h hspos hgt
    have hbound : (0 : Rat) < s / 50 * (6 / 5) := by positivity
    have hApos : (0 : Rat) < (air_mover_count_floored claim : Rat) :=
      lt_trans hbound hgt
    have hA0 : ¬ air_mover_count_floored claim = 0 := by
      intro h0
      rw [h0] at hApos
      simp at hApos
    simp only [validate_air_movers, h]
    rw [if_neg hA0, if_neg (not_le.2 hspos), if_pos hgt]
    exact ⟨_, rfl, rfl, rfl, rfl, pyInt_eq_floor _ (by positivity)⟩
  · intro counter claim s h hspos hA0 hgt hlt
    simp only [validate_air_movers, h]
    rw [if_neg hA0, if_neg (not_le.2 hspos), if_neg hgt, if_pos hlt]
    exact ⟨_, rfl, rfl, rfl, rfl⟩

/-- Witness for C7 (amended): the over-billing branch instantiated at the
spec's 150 sq ft / quantity-12 scenario. -/
theorem c7_air_mover_rule_witness :
    ∃ f, validate_air_movers 0 scenarioClaim = (0 + 1, [f]) ∧
      f.category = AuditCategory.leakage ∧
      f.severity = AuditSeverity.warning ∧
      f.potential_impact
        = some (((air_mover_count_floored scenarioClaim - pyInt ((150 : Rat) / 50)) * 35 : Int) : Rat) ∧
      pyInt ((150 : Rat) / 50) = ⌊(150 : Rat) / 50⌋ :=
  c7_air_mover_rule.2.2.2.1 0 scenarioClaim 150 (by decide) (by norm_num) (by decide)

/-- C7 counterexample: with a single air-mover item of quantity 2.5 over
100 sq ft, the spec-level `A = Σ quantities = 2.5` satisfies
`A > 1.2 × 100/50 = 2.4`, so the claim as stated demands one warning
finding — but the code sums `int(quantity)` per item (here `A_code = 2`) and
emits nothing. -/
theorem c7_counterexample :
    specAirMoverQuantitySum fractionalClaim = 5 / 2 ∧
    fractionalClaim.property_details.total_affected_sqft = some 100 ∧
    specAirMoverQuantitySum fractionalClaim > (100 / 50 : Rat) * (6 / 5) ∧
    validate_air_movers 0 fractionalClaim = (0, []) := by
  exact ⟨by decide, by decide, by decide, by decide⟩


theorem applyPattern_of_findall_nil (r : Re) (s : List Char)
    (h : findall r s = []) : applyPattern r s = s := by
  simp [applyPattern, h]

theorem foldl_applyPattern_of_matchfree (t : List Char) :
    ∀ (l : List Re), (∀ r ∈ l, findall r t = []) →
      l.foldl (fun acc r => applyPattern r acc) t = t := by
  intro l
  induction l with
  | nil => intro _; rfl
  | cons r rest ih =>
    intro hall
    have h1 : applyPattern r t = t :=
      applyPattern_of_findall_nil r t (hall r (by simp))
    simp only [List.foldl_cons, h1]
    exact ih (fun r' hr' => hall r' (by simp [hr']))

/-- C8 (amended).  String redaction is *not* idempotent in general: a first
pass can insert the placeholder so that its bracket creates a word boundary
which lets an earlier pattern match on a second pass (see the
counterexample).  Idempotence does hold on every string whose first
redaction leaves no pattern match: if `redact_string s` is match-free for
all redactor patterns, then `redact_string (redact_string s)
= redact_string s`.  In particular `redact_dict` / `redact_list` re-walks
change only string leaves whose once-redacted value still matches some
pattern. -/
theorem c8_redaction_idempotent_on_matchfree :
    ∀ s : List Char, matchFreeAll (redact_string s) = true →
      redact_string (redact_string s) = redact_string s := by
  intro s h
  unfold matchFreeAll at h
  rw [Bool.and_eq_true, Bool.and_eq_true] at h
  obtain ⟨⟨hpats, haddr⟩, hname⟩ := h
  have hp : ∀ r ∈ redactorPatterns, findall r (redact_string s) = [] := by
    intro r hr
    have := List.all_eq_true.1 hpats r hr
    simpa [List.isEmpty_iff] using this
  have ha : findall addressRe (redact_string s) = [] := by
    simpa [List.isEmpty_iff] using haddr
  have hn : findall nameTitleRe (redact_string s) = [] := by
    simpa [List.isEmpty_iff] using hname
  conv_lhs => rw [redact_string]
  split
  · rfl
  · rw [foldl_applyPattern_of_matchfree _ redactorPatterns hp,
        applyPattern_of_findall_nil _ _ ha, applyPattern_of_findall_nil _ _ hn]

/-- Witness for C8 (amended): a string whose redaction is match-free. -/
theorem c8_redaction_idempotent_on_matchfree_witness :
    redact_string (redact_string "hello".data) = redact_string "hello".data :=
  c8_redaction_idempotent_on_matchfree "hello".data (by decide)

/-- C8 counterexample: redacting `"Mr. John123-45-6789"` once yields
`"[REDACTED]123-45-6789"` (only the titled-name pattern matches — the SSN
digits have no leading word boundary after `n`); redacting a second time
yields `"[REDACTED][REDACTED]"`, because the placeholder's closing bracket
creates the word boundary the SSN pattern needs.  Hence
`redact(redact(x)) ≠ redact(x)`. -/
theorem c8_counterexample :
    redact_string (redact_string "Mr. John123-45-6789".data)
      ≠ redact_string "Mr. John123-45-6789".data ∧
    redact_string "Mr. John123-45-6789".data = "[REDACTED]123-45-6789".data ∧
    redact_string "[REDACTED]123-45-6789".data = "[REDACTED][REDACTED]".data := by
  refine ⟨by decide, by decide, by decide⟩


theorem lookup_none_of_not_mem_keys (k : String) :
    ∀ l : List (String × AuditRule), k ∉ l.map Prod.fst → l.lookup k = none := by
  intro l
  induction l with
  | nil => intro _; rfl
  | cons p rest ih =>
    intro h
    rw [List.map_cons, List.mem_cons] at h
    push_neg at h
    obtain ⟨h1, h2⟩ := h
    have hbe : (k == p.1) = false := beq_eq_false_iff_ne.mpr h1
    simp [List.lookup, hbe, ih h2]

theorem lookup_eraseP_self (k : String) :
    ∀ l : List (String × AuditRule), (l.map Prod.fst).Nodup →
      (l.eraseP (fun p => p.1 == k)).lookup k = none := by
  intro l
  induction l with
  | nil => intro _; rfl
  | cons p rest ih =>
    intro hnd
    rw [List.map_cons, List.nodup_cons] at hnd
    obtain ⟨hnotin, hnd'⟩ := hnd
    by_cases hk : p.1 = k
    · have hbe : (p.1 == k) = true := beq_iff_eq.mpr hk
      rw [List.eraseP_cons]
      simp only [hbe, cond_true]
      exact lookup_none_of_not_mem_keys k rest (by rw [← hk]; exact hnotin)
    · have hbe : (p.1 == k) = false := beq_eq_false_iff_ne.mpr hk
      have hbe2 : (k == p.1) = false :=
        beq_eq_false_iff_ne.mpr (fun h => hk h.symm)
      rw [List.eraseP_cons]
      simp only [hbe, cond_false]
      simp [List.lookup, hbe2, ih hnd']

theorem lookup_eraseP_ne (k id' : String) (hne : id' ≠ k) :
    ∀ l : List (String × AuditRule),
      (l.eraseP (fun p => p.1 == k)).lookup id' = l.lookup id' := by
  intro l
  induction l with
  | nil => rfl
  | cons p rest ih =>
    by_cases hk : p.1 = k
    · have hbe : (p.1 == k) = true := beq_iff_eq.mpr hk
      have hbe3 : (id' == p.1) = false :=
        beq_eq_false_iff_ne.mpr (by rw [hk]; exact hne)
      rw [List.eraseP_cons]
      simp only [hbe, cond_true]
      simp [List.lookup, hbe3]
    · have hbe : (p.1 == k) = false := beq_eq_false_iff_ne.mpr hk
      rw [List.eraseP_cons]
      simp only [hbe, cond_false]
      by_cases hid : id' = p.1
      · have hbe4 : (id' == p.1) = true := beq_iff_eq.mpr hid
        simp [List.lookup, hbe4]
      · have hbe4 : (id' == p.1) = false := beq_eq_false_iff_ne.mpr hid
        simp [List.lookup, hbe4, ih]

/-- C10.  `remove_rule` with an unregistered id returns `False` and leaves
the state exactly unchanged; with a registered id (in any well-formed state,
i.e. unique rule keys with the rule indexed under its category, as every
state reachable through `add_rule`/`remove_rule` is) it returns `True`,
after which `get_rule` of that id is `None`, every other id resolves as
before, and the category index merely loses that id's (first) entry while
all other categories are untouched. -/
theorem c10_remove_rule :
    ∀ (s : RegState) (rule_id : String),
      (s.rules.lookup rule_id = none → remove_rule s rule_id = some (false, s)) ∧
      (∀ r : AuditRule, (s.rules.map Prod.fst).Nodup →
        s.rules.lookup rule_id = some r →
        rule_id ∈ s.catIndex r.category →
        ∃ s', remove_rule s rule_id = some (true, s') ∧
          get_rule s' rule_id = none ∧
          (∀ id', id' ≠ rule_id → get_rule s' id' = get_rule s id') ∧
          s'.catIndex r.category = (s.catIndex r.category).erase rule_id ∧
          (∀ c, c ≠ r.category → s'.catIndex c = s.catIndex c)) := by
  intro s rule_id
  constructor
  · intro h
    unfold remove_rule
    rw [h]
  · intro r hnd hlook hmem
    have hstep : remove_rule s rule_id = some (true,
        { rules := s.rules.eraseP (fun p => p.1 == rule_id),
          catIndex := fun c =>
            if c = r.category then (s.catIndex r.category).erase rule_id
            else s.catIndex c }) := by
      unfold remove_rule
      rw [hlook]
      exact if_pos hmem
    refine ⟨_, hstep, ?_, ?_, ?_, ?_⟩
    · exact lookup_eraseP_self rule_id s.rules hnd
    · intro id' hne
      exact lookup_eraseP_ne rule_id id' hne s.rules
    · simp
    · intro c hc
      simp [hc]

/-- Witness for C10: removal of an unregistered and of a registered id from
a concrete two-rule registry. -/
theorem c10_remove_rule_witness :
    remove_rule regStateAB "ZZZ" = some (false, regStateAB) ∧
    ∃ s', remove_rule regStateAB "FIN-001" = some (true, s') ∧
      get_rule s' "FIN-001" = none ∧
      (∀ id', id' ≠ "FIN-001" → get_rule s' id' = get_rule regStateAB id') ∧
      s'.catIndex regRuleA.category
        = (regStateAB.catIndex regRuleA.category).erase "FIN-001" ∧
      (∀ c, c ≠ regRuleA.category → s'.catIndex c = regStateAB.catIndex c) :=
  ⟨(c10_remove_rule regStateAB "ZZZ").1 rfl,
   (c10_remove_rule regStateAB "FIN-001").2 regRuleA (by decide) rfl (by decide)⟩

